import Mathlib

/-!
Shallow embedding of the resumable row-processing automation scripts of the
repository (`main.py`, bulk user creation; `main1.py`, PCC contact-email
update): the pure validation engine, the working-copy filesystem step, one
iteration of the per-row retry loop as a function of a UI-outcome oracle,
and the batch-driver skeleton.  Exceptions raised by UI steps are modelled
as `Exn` values supplied by the oracle; Python `try`/`except` scopes become
explicit case analysis; the Excel working file becomes an association-list
filesystem mapping file names to row tables.
-/

set_option autoImplicit false

namespace Lp5

/-! Validation engine (`main.py` lines 56-58 and 189-199, `main1.py`
lines 54-56 and 227-235). -/

/-- Whitespace characters removed by Python's `str.strip` (ASCII range):
space, tab, newline, carriage return, vertical tab, form feed. -/
def isPySpace (c : Char) : Bool :=
  c == ' ' || c == '\t' || c == '\n' || c == '\r' || c == '\x0b' || c == '\x0c'

/-- Python `str.strip`, on the character list of a string: drop whitespace
from both ends. -/
def pyStrip (cs : List Char) : List Char :=
  ((cs.dropWhile isPySpace).reverse.dropWhile isPySpace).reverse

/-- Python `str.lower` (ASCII), on the character list of a string. -/
def pyLower (cs : List Char) : List Char :=
  cs.map Char.toLower

/-- Python `str.strip` returning a string. -/
def pyStripS (s : String) : String :=
  String.mk (pyStrip s.data)

/-- Python `str.lower` returning a string. -/
def pyLowerS (s : String) : String :=
  String.mk (pyLower s.data)

/-- Characters forbidden in usernames: `INVALID_USER_CHARS` in `main.py`,
the Python set literal `set(" :;/'\"\\|,<>?*")`. -/
def INVALID_USER_CHARS : List Char :=
  [' ', ':', ';', '/', '\'', '"', '\\', '|', ',', '<', '>', '?', '*']

/-- Characters forbidden in PCC codes: `INVALID_PCC_CHARS` in `main1.py`,
the same set literal `set(" :;/'\"\\|,<>?*")`. -/
def INVALID_PCC_CHARS : List Char :=
  [' ', ':', ';', '/', '\'', '"', '\\', '|', ',', '<', '>', '?', '*']

/-- `validate_username` from `main.py`: strip, reject the empty string,
reject any string containing a forbidden character. -/
def validate_username (username : String) : Bool :=
  let u := pyStrip username.data
  if u = [] then false
  else ! u.any (fun ch => INVALID_USER_CHARS.contains ch)

/-- `validate_pcc` from `main1.py`: strip, reject the empty string,
reject any string containing a forbidden character. -/
def validate_pcc (pcc : String) : Bool :=
  let p := pyStrip pcc.data
  if p = [] then false
  else ! p.any (fun ch => INVALID_PCC_CHARS.contains ch)

/-- Character class `[a-zA-Z0-9._%+-]` (local part of `EMAIL_REGEX`). -/
def isLocalChar (c : Char) : Bool :=
  c.isAlpha || c.isDigit || c == '.' || c == '_' || c == '%' || c == '+' || c == '-'

/-- Character class `[a-zA-Z0-9.-]` (domain part of `EMAIL_REGEX`). -/
def isDomainChar (c : Char) : Bool :=
  c.isAlpha || c.isDigit || c == '.' || c == '-'

/-- Match `[a-zA-Z]{2,}$`: at least two characters, all ASCII letters. -/
def matchesTld (cs : List Char) : Bool :=
  decide (2 ≤ cs.length) && cs.all Char.isAlpha

/-- Match `[a-zA-Z0-9.-]+\.[a-zA-Z]{2,}$`: some split point `j ≥ 1` with a
nonempty domain prefix, a literal dot, and a TLD suffix. -/
def matchesDomainDotTld (cs : List Char) : Bool :=
  (List.range cs.length).any (fun j =>
    decide (1 ≤ j) && (cs.take j).all isDomainChar &&
    (cs.getD j ' ' == '.') && matchesTld (cs.drop (j + 1)))

/-- Match the full anchored `EMAIL_REGEX`
`^[a-zA-Z0-9._%+-]+@[a-zA-Z0-9.-]+\.[a-zA-Z]{2,}$`: some split point
`i ≥ 1` with a nonempty local part, a literal `@`, and a matching rest. -/
def matchesEmail (cs : List Char) : Bool :=
  (List.range cs.length).any (fun i =>
    decide (1 ≤ i) && (cs.take i).all isLocalChar &&
    (cs.getD i ' ' == '@') && matchesDomainDotTld (cs.drop (i + 1)))

/-- `validate_email` from `main.py`/`main1.py`:
`bool(EMAIL_REGEX.match((email or "").strip()))`.  Stripping first means the
`$` anchor coincides with end-of-string. -/
def validate_email (email : String) : Bool :=
  matchesEmail (pyStrip email.data)

/-- Modelled from the spec: the fixed, ordered role list backing the rank
function (`sub agent` = 1, `agent` = 2, `ticketing agent` = 3).  The
functions `normalize_role` and `role_to_index` are called by `main.py`
(lines 316-317) but their definitions are not present in the repository
sources, so the list and both functions are reconstructed from the
specification text. -/
def ROLE_LIST : List String := ["sub agent", "agent", "ticketing agent"]

/-- Modelled from the spec: the fixed synonym table used by
`normalize_role`; "ticket agent" and "ticketing agent" map to the same
canonical value. -/
def ROLE_SYNONYMS : List (String × String) := [("ticket agent", "ticketing agent")]

/-- Modelled from the spec: `normalize_role` is a case- and whitespace-
insensitive lookup against the fixed synonym table; unrecognized input
passes through lower-cased and trimmed rather than failing. -/
def normalize_role (text : String) : String :=
  let t := pyLowerS (pyStripS text)
  match ROLE_SYNONYMS.lookup t with
  | some c => c
  | none => t

/-- Modelled from the spec: `role_to_index` maps a canonical role to its
1-based position in the fixed ordered role list and returns the sentinel 0
for any value not in the list. -/
def role_to_index (role : String) : Nat :=
  match ROLE_LIST.findIdx? (fun r => r == role) with
  | some i => i + 1
  | none => 0

/-! Data model: one row of the working table.  `main.py` reads the columns
`RowID`, `Name`, `Last Name`, `Email`, `Role`, `Agent User Name`,
`Creator`, `Status`, `DoneAt`; every cell is read as `str(...)` and the
data cells are stripped at the point of use. -/

structure Row where
  rowId : Nat
  name : String
  lastName : String
  email : String
  role : String
  agentUser : String
  creator : String
  status : String
  doneAt : String
deriving DecidableEq, Repr

/-- One row of the `main1.py` working table: `RowID`, the detected
`iata`/`name`/`pcc`/`email` columns, `Status`, `DoneAt`. -/
structure PccRow where
  rowId : Nat
  iata : String
  name : String
  pcc : String
  contactEmail : String
  status : String
  doneAt : String
deriving DecidableEq, Repr

/-- Exceptions that a UI step can raise, as seen by the handlers: the
selenium `TimeoutException` and `WebDriverException` are matched by name;
`KeyboardInterrupt` is the operator abort (not caught by
`except Exception`); everything else is distinguished only by the class
name that ends up in an `Error - <kind>` status. -/
inductive Exn where
  | timeout
  | keyboardInterrupt
  | webDriver
  | other (kind : String)
deriving DecidableEq, Repr

/-- The Python class name of an exception, as used by
`f"Error - {type(e).__name__}"`. -/
def Exn.kindName : Exn → String
  | .timeout => "TimeoutException"
  | .keyboardInterrupt => "KeyboardInterrupt"
  | .webDriver => "WebDriverException"
  | .other k => k

/-- UI interactions performed by `main.py` for one row, in order. -/
inductive UiEvent where
  | findModal
  | clickAddUser
  | fillInputs (agentUser fullName email password : String)
  | selectRoleOption (index : Nat)
  | clickSave
  | waitModalGone
deriving DecidableEq, Repr

/-- UI interactions performed by `main1.py` for one row, in order. -/
inductive PccEvent where
  | navigate (url : String)
  | clickEdit
  | waitEditModal
  | fillEmailInput (email : String)
  | clickSave
  | waitModalGone
deriving DecidableEq, Repr

/-- How one iteration of the per-row `while True:` retry loop ends:
`alreadyDone` (idempotent skip), `removed` (RowID no longer in the sheet),
`done` (newly marked Done, `break`), `retry` (`continue`: the same row is
retried). -/
inductive Outcome where
  | alreadyDone
  | removed
  | done
  | retry
deriving DecidableEq, Repr

/-- Result of one non-aborted loop iteration: the working table after the
iteration's writes, the outcome, the UI interactions attempted, the
`user_pause` calls made (their `mandatory` flags), and the row-identified
log records emitted. -/
structure ARes (ρ ev : Type) where
  table : List ρ
  outcome : Outcome
  events : List ev
  pauses : List Bool
  logs : List (Nat × String)
deriving DecidableEq, Repr

/-- Oracle fixing the outcome of every fallible UI step of one `main.py`
attempt (`none` = the step succeeds), whether the modal is already open,
whether the operator aborts at a blocking pause, and the timestamp used
for `DoneAt`. -/
structure UserOracle where
  findModal : Option Exn
  modalAlreadyOpen : Bool
  addUserClick : Option Exn
  fillStep : Option Exn
  selectRole : Option Exn
  saveClick : Option Exn
  waitInvisible : Option Exn
  operatorAborts : Bool
  nowIso : String
deriving DecidableEq, Repr

/-- `df_all.loc[df_all["RowID"] == rid, "Status"] = s` followed by
`to_excel`: set the status of every row with the given RowID. -/
def setStatus (t : List Row) (rid : Nat) (s : String) : List Row :=
  t.map (fun r => if r.rowId == rid then { r with status := s } else r)

/-- Mark a row Done with a completion timestamp (`Status` and `DoneAt`
assignments of the success branch). -/
def setDone (t : List Row) (rid : Nat) (now : String) : List Row :=
  t.map (fun r => if r.rowId == rid then { r with status := "Done", doneAt := now } else r)

/-! One iteration of the `main.py` per-row retry loop (lines 270-411).
The `try`/`except` scopes become explicit case analysis on the oracle's
step outcomes; `.error (e, t)` means the exception `e` escapes the loop
body with the working table in state `t`. -/

/-- Inner `except Exception` handler of a `main.py` UI step (open, fill,
select, save-click): anything but `KeyboardInterrupt` is caught, logged,
and turned into a mandatory pause and a retry of the same row, with no
status write. -/
def innerHandlerUser (table : List Row) (rid : Nat) (e : Exn) (aborts : Bool)
    (events : List UiEvent) (logs : List (Nat × String)) (logMsg : String) :
    Except (Exn × List Row) (ARes Row UiEvent) :=
  if e = .keyboardInterrupt then .error (e, table)
  else if aborts then .error (.keyboardInterrupt, table)
  else .ok ⟨table, .retry, events, [true], logs ++ [(rid, logMsg)]⟩

/-- Outer handlers of the `main.py` attempt (lines 401-411):
`KeyboardInterrupt` is re-raised; any other exception is logged, recorded
as `Error - <kind>` in the status column, and turned into a mandatory
pause and a retry. -/
def outerHandlerUser (table : List Row) (rid : Nat) (e : Exn) (aborts : Bool)
    (events : List UiEvent) (logs : List (Nat × String)) :
    Except (Exn × List Row) (ARes Row UiEvent) :=
  if e = .keyboardInterrupt then .error (e, table)
  else
    let t := setStatus table rid ("Error - " ++ e.kindName)
    if aborts then .error (.keyboardInterrupt, t)
    else .ok ⟨t, .retry, events, [true], logs ++ [(rid, "Unexpected error while processing")]⟩

/-- Post-submit wait (lines 377-399): invisibility observed means success
(`Done` plus timestamp, non-mandatory pause); `TimeoutException` keeps the
row pending as `Pending - save modal open`; any other exception reaches
the outer handlers. -/
def uiWaitUser (testing : Bool) (table : List Row) (rid : Nat)
    (o : UserOracle) (events : List UiEvent) (logs : List (Nat × String)) :
    Except (Exn × List Row) (ARes Row UiEvent) :=
  let events := events ++ [.waitModalGone]
  match o.waitInvisible with
  | none =>
    let t := setDone table rid o.nowIso
    if testing && o.operatorAborts then .error (.keyboardInterrupt, t)
    else .ok ⟨t, .done, events, [false], logs ++ [(rid, "Created user; marked Done")]⟩
  | some Exn.timeout =>
    let t := setStatus table rid "Pending - save modal open"
    if o.operatorAborts then .error (.keyboardInterrupt, t)
    else .ok ⟨t, .retry, events, [true], logs ++ [(rid, "Save action did not close modal")]⟩
  | some e => outerHandlerUser table rid e o.operatorAborts events logs

/-- Save click (lines 362-375), after logging the filled values. -/
def uiSaveUser (testing : Bool) (table : List Row) (rid : Nat)
    (o : UserOracle) (events : List UiEvent) (logs : List (Nat × String)) :
    Except (Exn × List Row) (ARes Row UiEvent) :=
  let logs := logs ++ [(rid, "Filled inputs")]
  let events := events ++ [.clickSave]
  match o.saveClick with
  | none => uiWaitUser testing table rid o events logs
  | some e => innerHandlerUser table rid e o.operatorAborts events logs "Failed to click Save"

/-- Role option selection at the computed rank (lines 353-360). -/
def uiSelectUser (testing : Bool) (table : List Row) (rid : Nat) (roleIndex : Nat)
    (o : UserOracle) (events : List UiEvent) (logs : List (Nat × String)) :
    Except (Exn × List Row) (ARes Row UiEvent) :=
  let events := events ++ [.selectRoleOption roleIndex]
  match o.selectRole with
  | none => uiSaveUser testing table rid o events logs
  | some e => innerHandlerUser table rid e o.operatorAborts events logs "Error selecting role"

/-- Input filling (lines 340-351): one `try` around the presence wait and
the five `clear_and_type` calls. -/
def uiFillUser (testing : Bool) (password : String) (table : List Row) (rid : Nat)
    (agentUser fullName email : String) (roleIndex : Nat)
    (o : UserOracle) (events : List UiEvent) (logs : List (Nat × String)) :
    Except (Exn × List Row) (ARes Row UiEvent) :=
  let events := events ++ [.fillInputs agentUser fullName email password]
  match o.fillStep with
  | none => uiSelectUser testing table rid roleIndex o events logs
  | some e => innerHandlerUser table rid e o.operatorAborts events logs "Error while filling inputs"

/-- The whole UI phase of one `main.py` attempt: the outer `try` of
lines 326-411, entered only after all validations pass. -/
def uiPhaseUser (testing : Bool) (password : String) (table : List Row) (rid : Nat)
    (agentUser fullName email : String) (roleIndex : Nat) (o : UserOracle) :
    Except (Exn × List Row) (ARes Row UiEvent) :=
  let events : List UiEvent := [.findModal]
  match o.findModal with
  | some e => outerHandlerUser table rid e o.operatorAborts events []
  | none =>
    if o.modalAlreadyOpen then
      uiFillUser testing password table rid agentUser fullName email roleIndex o events []
    else
      let events := events ++ [.clickAddUser]
      match o.addUserClick with
      | none => uiFillUser testing password table rid agentUser fullName email roleIndex o events []
      | some e =>
        innerHandlerUser table rid e o.operatorAborts events [] "Failed to click Add User button"

/-- One iteration of the `main.py` per-row retry loop: re-read the row,
idempotent skip when already Done, the four validation gates in source
order, then the UI phase. -/
def attemptUser (testing : Bool) (password : String) (table : List Row) (rid : Nat)
    (o : UserOracle) : Except (Exn × List Row) (ARes Row UiEvent) :=
  match table.find? (fun r => r.rowId == rid) with
  | none => .ok ⟨table, .removed, [], [], [(rid, "RowID not found in the sheet")]⟩
  | some row =>
    if pyLowerS (pyStripS row.status) == "done" then
      .ok ⟨table, .alreadyDone, [], [], [(rid, "already Done; skipping")]⟩
    else
      let name := pyStripS row.name
      let lastName := pyStripS row.lastName
      let email := pyStripS row.email
      let role := pyStripS row.role
      let agentUser := pyStripS row.agentUser
      if !(validate_username agentUser) then
        let t := setStatus table rid "Pending - invalid username"
        if o.operatorAborts then .error (.keyboardInterrupt, t)
        else .ok ⟨t, .retry, [], [true], [(rid, "Invalid username")]⟩
      else if !(validate_email email) then
        let t := setStatus table rid "Pending - invalid email"
        if o.operatorAborts then .error (.keyboardInterrupt, t)
        else .ok ⟨t, .retry, [], [true], [(rid, "Invalid email")]⟩
      else if agentUser == "" || name == "" || lastName == "" || email == "" then
        let t := setStatus table rid "Pending - missing fields"
        if o.operatorAborts then .error (.keyboardInterrupt, t)
        else .ok ⟨t, .retry, [], [true], [(rid, "Missing required fields")]⟩
      else
        let normalizedRole := normalize_role role
        let roleIndex := role_to_index normalizedRole
        if roleIndex == 0 then
          let t := setStatus table rid ("Pending - unknown role: " ++ role)
          if o.operatorAborts then .error (.keyboardInterrupt, t)
          else .ok ⟨t, .retry, [], [true], [(rid, "Unknown role")]⟩
        else
          uiPhaseUser testing password table rid agentUser (name ++ " " ++ lastName) email
            roleIndex o

/-! One iteration of the `main1.py` per-row retry loop (lines 296-433).
Unlike `main.py`, each UI-step handler here also writes a
`Pending - <phase>` status before pausing, except the navigation handler,
which only catches `WebDriverException` and writes nothing. -/

/-- `BASE_URL` from `main1.py`; the PCC is appended to form the target. -/
def BASE_URL : String := "https://platform.prd.farelogix.com/fpm/PCCs/Details/"

/-- Status assignment for `main1.py` rows. -/
def setStatusP (t : List PccRow) (rid : Nat) (s : String) : List PccRow :=
  t.map (fun r => if r.rowId == rid then { r with status := s } else r)

/-- Done marking for `main1.py` rows. -/
def setDoneP (t : List PccRow) (rid : Nat) (now : String) : List PccRow :=
  t.map (fun r => if r.rowId == rid then { r with status := "Done", doneAt := now } else r)

/-- Oracle for one `main1.py` attempt. -/
structure PccOracle where
  navigate : Option Exn
  editClick : Option Exn
  modalPresent : Option Exn
  fillEmail : Option Exn
  saveClick : Option Exn
  waitInvisible : Option Exn
  operatorAborts : Bool
  nowIso : String
deriving DecidableEq, Repr

/-- A `main1.py` UI-step handler that writes a `Pending - <phase>` status:
anything but `KeyboardInterrupt` is caught, the status is persisted, and a
mandatory pause precedes the retry of the same row. -/
def pendingHandlerPcc (table : List PccRow) (rid : Nat) (e : Exn) (aborts : Bool)
    (statusMsg : String) (events : List PccEvent) (logs : List (Nat × String))
    (logMsg : String) : Except (Exn × List PccRow) (ARes PccRow PccEvent) :=
  if e = .keyboardInterrupt then .error (e, table)
  else
    let t := setStatusP table rid statusMsg
    if aborts then .error (.keyboardInterrupt, t)
    else .ok ⟨t, .retry, events, [true], logs ++ [(rid, logMsg)]⟩

/-- Outer handlers of the `main1.py` attempt (lines 423-433). -/
def outerHandlerPcc (table : List PccRow) (rid : Nat) (e : Exn) (aborts : Bool)
    (events : List PccEvent) (logs : List (Nat × String)) :
    Except (Exn × List PccRow) (ARes PccRow PccEvent) :=
  if e = .keyboardInterrupt then .error (e, table)
  else
    let t := setStatusP table rid ("Error - " ++ e.kindName)
    if aborts then .error (.keyboardInterrupt, t)
    else .ok ⟨t, .retry, events, [true], logs ++ [(rid, "Unexpected error while processing")]⟩

/-- Post-submit wait of `main1.py` (lines 402-421). -/
def uiWaitPcc (testing : Bool) (table : List PccRow) (rid : Nat)
    (o : PccOracle) (events : List PccEvent) (logs : List (Nat × String)) :
    Except (Exn × List PccRow) (ARes PccRow PccEvent) :=
  let events := events ++ [.waitModalGone]
  match o.waitInvisible with
  | none =>
    let t := setDoneP table rid o.nowIso
    if testing && o.operatorAborts then .error (.keyboardInterrupt, t)
    else .ok ⟨t, .done, events, [false], logs ++ [(rid, "Updated PCC email; marked Done")]⟩
  | some Exn.timeout =>
    let t := setStatusP table rid "Pending - save modal open"
    if o.operatorAborts then .error (.keyboardInterrupt, t)
    else .ok ⟨t, .retry, events, [true], logs ++ [(rid, "Save action did not close modal")]⟩
  | some e => outerHandlerPcc table rid e o.operatorAborts events logs

/-- Save click of `main1.py` (lines 390-400). -/
def uiSavePcc (testing : Bool) (table : List PccRow) (rid : Nat)
    (o : PccOracle) (events : List PccEvent) (logs : List (Nat × String)) :
    Except (Exn × List PccRow) (ARes PccRow PccEvent) :=
  let logs := logs ++ [(rid, "Filled inputs")]
  let events := events ++ [.clickSave]
  match o.saveClick with
  | none => uiWaitPcc testing table rid o events logs
  | some e =>
    pendingHandlerPcc table rid e o.operatorAborts "Pending - could not click save"
      events logs "Failed to click Save"

/-- Agency-email filling of `main1.py` (lines 375-385). -/
def uiFillPcc (testing : Bool) (table : List PccRow) (rid : Nat)
    (contactEmail : String) (o : PccOracle) (events : List PccEvent)
    (logs : List (Nat × String)) : Except (Exn × List PccRow) (ARes PccRow PccEvent) :=
  let events := events ++ [.fillEmailInput contactEmail]
  match o.fillEmail with
  | none => uiSavePcc testing table rid o events logs
  | some e =>
    pendingHandlerPcc table rid e o.operatorAborts "Pending - error filling input"
      events logs "Error while filling email input"

/-- Edit-modal presence wait of `main1.py` (lines 363-373). -/
def uiModalPcc (testing : Bool) (table : List PccRow) (rid : Nat)
    (contactEmail : String) (o : PccOracle) (events : List PccEvent)
    (logs : List (Nat × String)) : Except (Exn × List PccRow) (ARes PccRow PccEvent) :=
  let events := events ++ [.waitEditModal]
  match o.modalPresent with
  | none => uiFillPcc testing table rid contactEmail o events logs
  | some e =>
    pendingHandlerPcc table rid e o.operatorAborts "Pending - edit modal missing"
      events logs "Edit modal did not appear"

/-- Edit-button click of `main1.py` (lines 351-361). -/
def uiEditPcc (testing : Bool) (table : List PccRow) (rid : Nat)
    (contactEmail : String) (o : PccOracle) (events : List PccEvent)
    (logs : List (Nat × String)) : Except (Exn × List PccRow) (ARes PccRow PccEvent) :=
  let events := events ++ [.clickEdit]
  match o.editClick with
  | none => uiModalPcc testing table rid contactEmail o events logs
  | some e =>
    pendingHandlerPcc table rid e o.operatorAborts "Pending - edit not available"
      events logs "Failed to click Edit button"

/-- The whole UI phase of one `main1.py` attempt: the outer `try` of
lines 340-433, starting with the navigation whose handler catches only
`WebDriverException` (log, pause, retry, no status write). -/
def uiPhasePcc (testing : Bool) (table : List PccRow) (rid : Nat)
    (pcc contactEmail : String) (o : PccOracle) :
    Except (Exn × List PccRow) (ARes PccRow PccEvent) :=
  let events : List PccEvent := [.navigate (BASE_URL ++ pcc)]
  match o.navigate with
  | none => uiEditPcc testing table rid contactEmail o events []
  | some Exn.webDriver =>
    if o.operatorAborts then .error (.keyboardInterrupt, table)
    else .ok ⟨table, .retry, events, [true], [(rid, "Failed to navigate")]⟩
  | some e => outerHandlerPcc table rid e o.operatorAborts events []

/-- One iteration of the `main1.py` per-row retry loop: re-read the row,
idempotent skip when already Done, the three validation gates in source
order, then the UI phase. -/
def attemptPcc (testing : Bool) (table : List PccRow) (rid : Nat)
    (o : PccOracle) : Except (Exn × List PccRow) (ARes PccRow PccEvent) :=
  match table.find? (fun r => r.rowId == rid) with
  | none => .ok ⟨table, .removed, [], [], [(rid, "RowID not found in the sheet")]⟩
  | some row =>
    if pyLowerS (pyStripS row.status) == "done" then
      .ok ⟨table, .alreadyDone, [], [], [(rid, "already Done; skipping")]⟩
    else
      let pcc := pyStripS row.pcc
      let contactEmail := pyStripS row.contactEmail
      if !(validate_pcc pcc) then
        let t := setStatusP table rid "Pending - invalid PCC"
        if o.operatorAborts then .error (.keyboardInterrupt, t)
        else .ok ⟨t, .retry, [], [true], [(rid, "Invalid PCC")]⟩
      else if !(validate_email contactEmail) then
        let t := setStatusP table rid "Pending - invalid email"
        if o.operatorAborts then .error (.keyboardInterrupt, t)
        else .ok ⟨t, .retry, [], [true], [(rid, "Invalid email")]⟩
      else if pcc == "" || contactEmail == "" then
        let t := setStatusP table rid "Pending - missing fields"
        if o.operatorAborts then .error (.keyboardInterrupt, t)
        else .ok ⟨t, .retry, [], [true], [(rid, "Missing required fields")]⟩
      else
        uiPhasePcc testing table rid pcc contactEmail o

/-! Tabular store and working copy (`main.py` lines 123-133 and 217-242;
`make_working_copy` in `main1.py` lines 118-128 is identical up to the
error-message wording).  The filesystem is an association list from file
names to parsed row tables; `read_excel`/`to_excel` become reads and
writes of one entry. -/

/-- A source-file path split as `pathlib` sees it: `stem` and `suffix`. -/
structure SrcPath where
  stem : String
  suffix : String
deriving DecidableEq, Repr

/-- The source file's name: stem followed by suffix. -/
def SrcPath.key (p : SrcPath) : String := p.stem ++ p.suffix

/-- The working copy's name:
`src.with_name(f"{src.stem}{WORKING_SUFFIX}{src.suffix}")` with
`WORKING_SUFFIX = "_working"`. -/
def workingKey (p : SrcPath) : String := p.stem ++ "_working" ++ p.suffix

/-- The filesystem: file name to parsed table, in creation order. -/
abbrev FS := List (String × List Row)

/-- Read a file (the entry with the given name; names are unique in a
real filesystem, so first match). -/
def fsRead : FS → String → Option (List Row)
  | [], _ => none
  | p :: rest, k => if p.1 == k then some p.2 else fsRead rest k

/-- Write a file: overwrite the entry with the given name, or append a
new entry when the name is absent. -/
def fsWrite : FS → String → List Row → FS
  | [], k, v => [(k, v)]
  | p :: rest, k, v => if p.1 == k then (k, v) :: rest else p :: fsWrite rest k v

/-- `make_working_copy`: `FileNotFoundError` when the source is absent;
reuse an existing working copy; otherwise copy the source to the working
name.  The source entry itself is never written. -/
def make_working_copy (fs : FS) (p : SrcPath) : Except String (FS × String) :=
  match fsRead fs p.key with
  | none => .error ("Source Excel not found: " ++ p.key)
  | some content =>
    match fsRead fs (workingKey p) with
    | some _ => .ok (fs, workingKey p)
    | none => .ok (fsWrite fs (workingKey p) content, workingKey p)

/-- Row-id resolution of the `main.py` batch driver (lines 233-238): with
a non-empty creator filter, keep the rows whose stripped, lower-cased
`Creator` cell equals the lower-cased filter; `None` or the empty string
select every row. -/
def resolve_row_ids (table : List Row) (creatorFilter : Option String) : List Nat :=
  match creatorFilter with
  | some f =>
    if f ≠ "" then
      (table.filter (fun r => pyLowerS (pyStripS r.creator) == pyLowerS f)).map Row.rowId
    else table.map Row.rowId
  | none => table.map Row.rowId

/-- The retry loop for one row, driven by a list of per-attempt oracles
(the fuel); each iteration re-reads the working file, runs one attempt
and writes the attempt's table back.  An escaping exception carries the
filesystem as left by the aborted iteration. -/
def processRow (testing : Bool) (password : String) (wk : String) (rid : Nat) :
    FS → List UserOracle → Except (Exn × FS) (FS × List UiEvent)
  | fs, [] => .ok (fs, [])
  | fs, o :: rest =>
    let table := (fsRead fs wk).getD []
    match attemptUser testing password table rid o with
    | .error (e, t) => .error (e, fsWrite fs wk t)
    | .ok res =>
      let fs' := fsWrite fs wk res.table
      match res.outcome with
      | .retry =>
        match processRow testing password wk rid fs' rest with
        | .error x => .error x
        | .ok (fs'', evs) => .ok (fs'', res.events ++ evs)
      | _ => .ok (fs', res.events)

/-- The batch driver's loop over the resolved row ids, in order. -/
def processRows (testing : Bool) (password : String) (wk : String) :
    FS → List (Nat × List UserOracle) → Except (Exn × FS) (FS × List UiEvent)
  | fs, [] => .ok (fs, [])
  | fs, (rid, os) :: rest =>
    match processRow testing password wk rid fs os with
    | .error x => .error x
    | .ok (fs', evs) =>
      match processRows testing password wk fs' rest with
      | .error x => .error x
      | .ok (fs'', evs') => .ok (fs'', evs ++ evs')

/-- Result of the users-tab confirmation loop (`main.py` lines 253-263):
confirmed, aborted by the operator at one of its mandatory pauses, or out
of model fuel. -/
inductive TabOutcome where
  | confirmed
  | aborted
  | fuelOut
deriving DecidableEq, Repr

/-- The blocking users-tab confirmation loop: retry until a try succeeds
or the operator aborts at the failure pause. -/
def ensureUsersTab : List Bool → Bool → TabOutcome
  | [], _ => .fuelOut
  | ok :: rest, aborts =>
    if ok then .confirmed
    else if aborts then .aborted
    else ensureUsersTab rest aborts

/-- How a whole `main.py` run ends: clean no-op before any browser is
opened, all rows processed, operator abort (the browser is still closed by
the `finally`), or out of model fuel in the tab loop. -/
inductive RunExit where
  | noRows
  | completed
  | aborted (e : Exn)
  | stuckAtTab
deriving DecidableEq, Repr

/-- Observable outcome of a whole `main.py` run: final filesystem, whether
a browser session was ever opened, the UI interactions of the completed
part, and the exit kind. -/
structure RunTrace where
  fs : FS
  browserOpened : Bool
  uiEvents : List UiEvent
  exit : RunExit
deriving DecidableEq, Repr

/-- Oracle for the startup phase: whether the operator aborts at the
mandatory post-login pause, the outcomes of the users-tab confirmation
tries, and whether the operator aborts at the tab-failure pause. -/
structure StartOracle where
  loginAborts : Bool
  tabTries : List Bool
  tabAborts : Bool
deriving DecidableEq, Repr

/-- The `main.py` batch driver: working copy, helper columns written back,
row-id set resolved once, clean no-op exit on an empty set before any
browser is opened, then login pause, users-tab loop, and the per-row loop.
A startup resource error is the `Except.error` case. -/
def run_batch (testing : Bool) (password : String) (creatorFilter : Option String)
    (src : SrcPath) (fs0 : FS) (so : StartOracle) (rowOracles : Nat → List UserOracle) :
    Except String RunTrace :=
  match make_working_copy fs0 src with
  | .error msg => .error msg
  | .ok (fs1, wk) =>
    let table := (fsRead fs1 wk).getD []
    let fs2 := fsWrite fs1 wk table
    let rowIds := resolve_row_ids table creatorFilter
    if rowIds.isEmpty then .ok ⟨fs2, false, [], .noRows⟩
    else if so.loginAborts then .ok ⟨fs2, true, [], .aborted .keyboardInterrupt⟩
    else
      match ensureUsersTab so.tabTries so.tabAborts with
      | .aborted => .ok ⟨fs2, true, [], .aborted .keyboardInterrupt⟩
      | .fuelOut => .ok ⟨fs2, true, [], .stuckAtTab⟩
      | .confirmed =>
        match processRows testing password wk fs2
            (rowIds.map (fun rid => (rid, rowOracles rid))) with
        | .error (e, fs') => .ok ⟨fs', true, [], .aborted e⟩
        | .ok (fs', evs) => .ok ⟨fs', true, evs, .completed⟩

/-! Concrete fixtures used to instantiate the theorems below, and one
auxiliary predicate. -/

/-- No role-option selection event with index below 1 occurs in the list. -/
def noBadSelect (es : List UiEvent) : Prop :=
  ∀ j, UiEvent.selectRoleOption j ∈ es → 1 ≤ j

/-- A fully valid `main.py` row. -/
def rowA : Row := ⟨0, "Ann", "Lee", "ann@ex.com", "agent", "ann", "", "", ""⟩

/-- A row already at terminal success. -/
def rowDone : Row := ⟨1, "Bob", "Ray", "b@r.co", "agent", "bob", "", "Done", "T1"⟩

/-- A row failing both the username check and the email check. -/
def rowBadBoth : Row := ⟨2, "C", "D", "noatsign", "agent", "x:y", "", "", ""⟩

/-- A row whose role is not in the fixed role list. -/
def rowUnknownRole : Row := ⟨3, "E", "F", "e@f.io", "Manager", "ef", "", "", ""⟩

/-- A row with a valid username but an email with no `@`. -/
def rowBadEmail : Row := ⟨4, "G", "H", "noatsign", "agent", "gh", "", "", ""⟩

/-- A row whose `Creator` cell carries a leading space. -/
def rowCreator : Row := ⟨7, "I", "J", "i@j.co", "agent", "ij", " A", "", ""⟩

/-- A `main.py` oracle where every UI step succeeds. -/
def oOk : UserOracle := ⟨none, false, none, none, none, none, none, false, "T0"⟩

/-- Opening the Add User modal fails with a caught timeout. -/
def oOpenFail : UserOracle := ⟨none, false, some .timeout, none, none, none, none, false, "T0"⟩

/-- The modal is already open and the fill step fails. -/
def oFillFail : UserOracle :=
  ⟨none, true, none, some (.other "NoSuchElementException"), none, none, none, false, "T0"⟩

/-- The post-submit wait times out. -/
def oSaveTimeout : UserOracle := ⟨none, false, none, none, none, none, some .timeout, false, "T0"⟩

/-- The post-submit wait raises a non-timeout exception (outer handler). -/
def oOuterFail : UserOracle := ⟨none, false, none, none, none, none, some .webDriver, false, "T0"⟩

/-- The operator aborts at the first blocking pause. -/
def oAbort : UserOracle := ⟨none, false, none, none, none, none, none, true, "T0"⟩

/-- A fully valid `main1.py` row. -/
def prowA : PccRow := ⟨0, "11111111", "Agency", "BV5Q", "a@b.co", "", ""⟩

/-- A `main1.py` row already at terminal success. -/
def prowDone : PccRow := ⟨1, "2", "Ag2", "CC2C", "c@d.co", "Done", "T1"⟩

/-- A `main1.py` row with a valid PCC but an email with no `@`. -/
def prowBadEmail : PccRow := ⟨2, "3", "Ag3", "DD3D", "noatsign", "", ""⟩

/-- A `main1.py` oracle where every UI step succeeds. -/
def pOk : PccOracle := ⟨none, none, none, none, none, none, false, "T0"⟩

/-- Navigation fails with a caught `WebDriverException`. -/
def pNavFail : PccOracle := ⟨some .webDriver, none, none, none, none, none, false, "T0"⟩

/-- The Edit click fails with a caught timeout. -/
def pEditFail : PccOracle := ⟨none, some .timeout, none, none, none, none, false, "T0"⟩

/-- The operator aborts at the first blocking pause. -/
def pAbort : PccOracle := ⟨none, none, none, none, none, none, true, "T0"⟩

/-- A one-file filesystem holding a source table. -/
def fsA : FS := [("users.xlsx", [rowA])]

/-- The source path of `fsA`. -/
def srcA : SrcPath := ⟨"users", ".xlsx"⟩

/-- A second fully valid `main.py` row. -/
def rowB : Row := ⟨5, "Cat", "Dog", "cat@dog.net", "sub agent", "cat", "", "", ""⟩

/-- A row with valid identifier and email but an empty first name. -/
def rowMissing : Row := ⟨6, "", "Lee", "a@b.co", "agent", "ab", "", "", ""⟩

/-- A `main1.py` row whose PCC contains a forbidden space. -/
def prowBadPcc : PccRow := ⟨3, "4", "Ag4", "B V", "x@y.co", "", ""⟩

/-- A filesystem whose working file holds only the already-done row. -/
def fsDone : FS := [("w.xlsx", [rowDone])]

/-- A filesystem holding an empty source table. -/
def fsEmpty : FS := [("t.xlsx", [])]

/-- The source path of `fsEmpty`. -/
def srcEmpty : SrcPath := ⟨"t", ".xlsx"⟩

/-- A startup oracle where the operator aborts at the post-login pause. -/
def soAbort : StartOracle := ⟨true, [], false⟩

/-- A startup oracle where everything succeeds at once. -/
def soOk : StartOracle := ⟨false, [true], false⟩

/-- Per-row oracles for a run that needs none. -/
def roEmpty : Nat → List UserOracle := fun _ => []

/-- The modal is already open and the post-submit wait times out. -/
def oWaitTimeout : UserOracle :=
  ⟨none, true, none, none, none, none, some .timeout, false, "T0"⟩

/-- The modal is already open and the post-submit wait raises a
non-timeout exception. -/
def oWaitOther : UserOracle :=
  ⟨none, true, none, none, none, none, some (.other "StaleElementReferenceException"),
    false, "T0"⟩

/-- `main1.py` oracle where the modal-presence wait fails. -/
def pModalFail : PccOracle := ⟨none, none, some .timeout, none, none, none, false, "T0"⟩

/-! Helper lemmas about the filesystem, the string helpers and the email
matcher. -/

theorem fsRead_fsWrite_self (fs : FS) (k : String) (v : List Row) :
    fsRead (fsWrite fs k v) k = some v := by
  induction fs with
  | nil => simp [fsRead, fsWrite]
  | cons p rest ih =>
    by_cases h : p.1 = k
    · simp [fsWrite, fsRead, h]
    · simp [fsWrite, fsRead, h, ih]

theorem fsRead_fsWrite_ne (fs : FS) (k k' : String) (v : List Row) (h : k' ≠ k) :
    fsRead (fsWrite fs k v) k' = fsRead fs k' := by
  induction fs with
  | nil => simp [fsRead, fsWrite, Ne.symm h]
  | cons p rest ih =>
    by_cases hp : p.1 = k
    · simp [fsWrite, fsRead, hp, Ne.symm h]
    · by_cases hq : p.1 = k'
      · simp [fsWrite, fsRead, hp, hq, h]
      · simp [fsWrite, fsRead, hp, hq, ih]

theorem srcKey_ne_workingKey (p : SrcPath) : p.key ≠ workingKey p := by
  intro h
  have hl := congrArg String.length h
  have h8 : ("_working" : String).length = 8 := rfl
  simp [SrcPath.key, workingKey, String.length_append, h8] at hl

theorem mem_pyStrip {c : Char} {cs : List Char} (h : c ∈ pyStrip cs) : c ∈ cs := by
  unfold pyStrip at h
  rw [List.mem_reverse] at h
  have h1 : c ∈ (cs.dropWhile isPySpace).reverse :=
    (List.dropWhile_sublist _).mem h
  rw [List.mem_reverse] at h1
  exact (List.dropWhile_sublist _).mem h1

theorem matchesEmail_eq_false {cs : List Char} (h : '@' ∉ cs) :
    matchesEmail cs = false := by
  unfold matchesEmail
  rw [List.any_eq_false]
  intro i hi
  rw [List.mem_range] at hi
  intro hX
  simp only [Bool.and_eq_true, decide_eq_true_eq, beq_iff_eq] at hX
  obtain ⟨⟨⟨h1, h2⟩, h3⟩, h4⟩ := hX
  rw [List.getD_eq_getElem cs ' ' hi] at h3
  exact h (h3 ▸ List.getElem_mem hi)

/-! Error propagation: the only exception that can escape one iteration of
either per-row loop is the operator's `KeyboardInterrupt`. -/

theorem innerHandlerUser_error {table : List Row} {rid : Nat} {e : Exn} {ab : Bool}
    {evs : List UiEvent} {lgs : List (Nat × String)} {m : String} {e' : Exn} {t : List Row}
    (h : innerHandlerUser table rid e ab evs lgs m = .error (e', t)) :
    e' = .keyboardInterrupt := by
  unfold innerHandlerUser at h
  split at h
  · simp only [Except.error.injEq, Prod.mk.injEq] at h
    rename_i he
    rw [← h.1, he]
  · split at h
    · simp only [Except.error.injEq, Prod.mk.injEq] at h
      exact h.1.symm
    · cases h

theorem outerHandlerUser_error {table : List Row} {rid : Nat} {e : Exn} {ab : Bool}
    {evs : List UiEvent} {lgs : List (Nat × String)} {e' : Exn} {t : List Row}
    (h : outerHandlerUser table rid e ab evs lgs = .error (e', t)) :
    e' = .keyboardInterrupt := by
  unfold outerHandlerUser at h
  split at h
  · simp only [Except.error.injEq, Prod.mk.injEq] at h
    rename_i he
    rw [← h.1, he]
  · split at h
    · simp only [Except.error.injEq, Prod.mk.injEq] at h
      exact h.1.symm
    · cases h

theorem uiWaitUser_error {testing : Bool} {table : List Row} {rid : Nat}
    {o : UserOracle} {evs : List UiEvent} {lgs : List (Nat × String)} {e' : Exn} {t : List Row}
    (h : uiWaitUser testing table rid o evs lgs = .error (e', t)) :
    e' = .keyboardInterrupt := by
  unfold uiWaitUser at h
  split at h
  · split at h
    · simp only [Except.error.injEq, Prod.mk.injEq] at h
      exact h.1.symm
    · cases h
  · split at h
    · simp only [Except.error.injEq, Prod.mk.injEq] at h
      exact h.1.symm
    · cases h
  · exact outerHandlerUser_error h

theorem uiSaveUser_error {testing : Bool} {table : List Row} {rid : Nat}
    {o : UserOracle} {evs : List UiEvent} {lgs : List (Nat × String)} {e' : Exn} {t : List Row}
    (h : uiSaveUser testing table rid o evs lgs = .error (e', t)) :
    e' = .keyboardInterrupt := by
  unfold uiSaveUser at h
  split at h
  · exact uiWaitUser_error h
  · exact innerHandlerUser_error h

theorem uiSelectUser_error {testing : Bool} {table : List Row} {rid ri : Nat}
    {o : UserOracle} {evs : List UiEvent} {lgs : List (Nat × String)} {e' : Exn} {t : List Row}
    (h : uiSelectUser testing table rid ri o evs lgs = .error (e', t)) :
    e' = .keyboardInterrupt := by
  unfold uiSelectUser at h
  split at h
  · exact uiSaveUser_error h
  · exact innerHandlerUser_error h

theorem uiFillUser_error {testing : Bool} {pw : String} {table : List Row} {rid : Nat}
    {aU fN em : String} {ri : Nat} {o : UserOracle} {evs : List UiEvent}
    {lgs : List (Nat × String)} {e' : Exn} {t : List Row}
    (h : uiFillUser testing pw table rid aU fN em ri o evs lgs = .error (e', t)) :
    e' = .keyboardInterrupt := by
  unfold uiFillUser at h
  split at h
  · exact uiSelectUser_error h
  · exact innerHandlerUser_error h

theorem uiPhaseUser_error {testing : Bool} {pw : String} {table : List Row} {rid : Nat}
    {aU fN em : String} {ri : Nat} {o : UserOracle} {e' : Exn} {t : List Row}
    (h : uiPhaseUser testing pw table rid aU fN em ri o = .error (e', t)) :
    e' = .keyboardInterrupt := by
  unfold uiPhaseUser at h
  split at h
  · exact outerHandlerUser_error h
  · split at h
    · exact uiFillUser_error h
    · split at h
      · exact uiFillUser_error h
      · exact innerHandlerUser_error h

theorem attemptUser_error {testing : Bool} {pw : String} {table : List Row} {rid : Nat}
    {o : UserOracle} {e' : Exn} {t : List Row}
    (h : attemptUser testing pw table rid o = .error (e', t)) :
    e' = .keyboardInterrupt := by
  unfold attemptUser at h
  split at h
  · cases h
  · split at h
    · cases h
    · dsimp only at h
      split at h
      · split at h
        · simp only [Except.error.injEq, Prod.mk.injEq] at h
          exact h.1.symm
        · cases h
      · split at h
        · split at h
          · simp only [Except.error.injEq, Prod.mk.injEq] at h
            exact h.1.symm
          · cases h
        · split at h
          · split at h
            · simp only [Except.error.injEq, Prod.mk.injEq] at h
              exact h.1.symm
            · cases h
          · split at h
            · split at h
              · simp only [Except.error.injEq, Prod.mk.injEq] at h
                exact h.1.symm
              · cases h
            · exact uiPhaseUser_error h

theorem pendingHandlerPcc_error {table : List PccRow} {rid : Nat} {e : Exn} {ab : Bool}
    {sm : String} {evs : List PccEvent} {lgs : List (Nat × String)} {m : String}
    {e' : Exn} {t : List PccRow}
    (h : pendingHandlerPcc table rid e ab sm evs lgs m = .error (e', t)) :
    e' = .keyboardInterrupt := by
  unfold pendingHandlerPcc at h
  split at h
  · simp only [Except.error.injEq, Prod.mk.injEq] at h
    rename_i he
    rw [← h.1, he]
  · split at h
    · simp only [Except.error.injEq, Prod.mk.injEq] at h
      exact h.1.symm
    · cases h

theorem outerHandlerPcc_error {table : List PccRow} {rid : Nat} {e : Exn} {ab : Bool}
    {evs : List PccEvent} {lgs : List (Nat × String)} {e' : Exn} {t : List PccRow}
    (h : outerHandlerPcc table rid e ab evs lgs = .error (e', t)) :
    e' = .keyboardInterrupt := by
  unfold outerHandlerPcc at h
  split at h
  · simp only [Except.error.injEq, Prod.mk.injEq] at h
    rename_i he
    rw [← h.1, he]
  · split at h
    · simp only [Except.error.injEq, Prod.mk.injEq] at h
      exact h.1.symm
    · cases h

theorem uiWaitPcc_error {testing : Bool} {table : List PccRow} {rid : Nat}
    {o : PccOracle} {evs : List PccEvent} {lgs : List (Nat × String)} {e' : Exn}
    {t : List PccRow} (h : uiWaitPcc testing table rid o evs lgs = .error (e', t)) :
    e' = .keyboardInterrupt := by
  unfold uiWaitPcc at h
  split at h
  · split at h
    · simp only [Except.error.injEq, Prod.mk.injEq] at h
      exact h.1.symm
    · cases h
  · split at h
    · simp only [Except.error.injEq, Prod.mk.injEq] at h
      exact h.1.symm
    · cases h
  · exact outerHandlerPcc_error h

theorem uiSavePcc_error {testing : Bool} {table : List PccRow} {rid : Nat}
    {o : PccOracle} {evs : List PccEvent} {lgs : List (Nat × String)} {e' : Exn}
    {t : List PccRow} (h : uiSavePcc testing table rid o evs lgs = .error (e', t)) :
    e' = .keyboardInterrupt := by
  unfold uiSavePcc at h
  split at h
  · exact uiWaitPcc_error h
  · exact pendingHandlerPcc_error h

theorem uiFillPcc_error {testing : Bool} {table : List PccRow} {rid : Nat}
    {ce : String} {o : PccOracle} {evs : List PccEvent} {lgs : List (Nat × String)}
    {e' : Exn} {t : List PccRow}
    (h : uiFillPcc testing table rid ce o evs lgs = .error (e', t)) :
    e' = .keyboardInterrupt := by
  unfold uiFillPcc at h
  split at h
  · exact uiSavePcc_error h
  · exact pendingHandlerPcc_error h

theorem uiModalPcc_error {testing : Bool} {table : List PccRow} {rid : Nat}
    {ce : String} {o : PccOracle} {evs : List PccEvent} {lgs : List (Nat × String)}
    {e' : Exn} {t : List PccRow}
    (h : uiModalPcc testing table rid ce o evs lgs = .error (e', t)) :
    e' = .keyboardInterrupt := by
  unfold uiModalPcc at h
  split at h
  · exact uiFillPcc_error h
  · exact pendingHandlerPcc_error h

theorem uiEditPcc_error {testing : Bool} {table : List PccRow} {rid : Nat}
    {ce : String} {o : PccOracle} {evs : List PccEvent} {lgs : List (Nat × String)}
    {e' : Exn} {t : List PccRow}
    (h : uiEditPcc testing table rid ce o evs lgs = .error (e', t)) :
    e' = .keyboardInterrupt := by
  unfold uiEditPcc at h
  split at h
  · exact uiModalPcc_error h
  · exact pendingHandlerPcc_error h

theorem uiPhasePcc_error {testing : Bool} {table : List PccRow} {rid : Nat}
    {pcc ce : String} {o : PccOracle} {e' : Exn} {t : List PccRow}
    (h : uiPhasePcc testing table rid pcc ce o = .error (e', t)) :
    e' = .keyboardInterrupt := by
  unfold uiPhasePcc at h
  split at h
  · exact uiEditPcc_error h
  · split at h
    · simp only [Except.error.injEq, Prod.mk.injEq] at h
      exact h.1.symm
    · cases h
  · exact outerHandlerPcc_error h

theorem attemptPcc_error {testing : Bool} {table : List PccRow} {rid : Nat}
    {o : PccOracle} {e' : Exn} {t : List PccRow}
    (h : attemptPcc testing table rid o = .error (e', t)) :
    e' = .keyboardInterrupt := by
  unfold attemptPcc at h
  split at h
  · cases h
  · split at h
    · cases h
    · dsimp only at h
      split at h
      · split at h
        · simp only [Except.error.injEq, Prod.mk.injEq] at h
          exact h.1.symm
        · cases h
      · split at h
        · split at h
          · simp only [Except.error.injEq, Prod.mk.injEq] at h
            exact h.1.symm
          · cases h
        · split at h
          · split at h
            · simp only [Except.error.injEq, Prod.mk.injEq] at h
              exact h.1.symm
            · cases h
          · exact uiPhasePcc_error h

theorem processRow_error {testing : Bool} {pw wk : String} {rid : Nat}
    {fs fs' : FS} {os : List UserOracle} {e' : Exn}
    (h : processRow testing pw wk rid fs os = .error (e', fs')) :
    e' = .keyboardInterrupt := by
  induction os generalizing fs with
  | nil => cases h
  | cons o rest ih =>
    unfold processRow at h
    dsimp only at h
    split at h
    · rename_i e t heq
      simp only [Except.error.injEq, Prod.mk.injEq] at h
      rw [← h.1]
      exact attemptUser_error heq
    · split at h
      · split at h
        · rename_i x heq2
          simp only [Except.error.injEq] at h
          subst h
          exact ih heq2
        · cases h
      · cases h

theorem processRows_error {testing : Bool} {pw wk : String}
    {fs fs' : FS} {jobs : List (Nat × List UserOracle)} {e' : Exn}
    (h : processRows testing pw wk fs jobs = .error (e', fs')) :
    e' = .keyboardInterrupt := by
  induction jobs generalizing fs with
  | nil => cases h
  | cons j rest ih =>
    unfold processRows at h
    split at h
    · rename_i x heq
      simp only [Except.error.injEq] at h
      subst h
      exact processRow_error heq
    · split at h
      · rename_i fs1 evs heq x heq2
        simp only [Except.error.injEq] at h
        subst h
        exact ih heq2
      · cases h

/-! Retry discipline: whenever an iteration ends in a retry of the same
row, exactly one mandatory pause was emitted and a log record carrying the
row's identity was written. -/

theorem innerHandlerUser_retry {table : List Row} {rid : Nat} {e : Exn} {ab : Bool}
    {evs : List UiEvent} {lgs : List (Nat × String)} {m : String} {res : ARes Row UiEvent}
    (h : innerHandlerUser table rid e ab evs lgs m = .ok res) :
    res.pauses = [true] ∧ res.logs.any (fun l => l.1 == rid) = true := by
  unfold innerHandlerUser at h
  split at h
  · cases h
  · split at h
    · cases h
    · simp only [Except.ok.injEq] at h
      subst h
      exact ⟨rfl, by simp⟩

theorem outerHandlerUser_retry {table : List Row} {rid : Nat} {e : Exn} {ab : Bool}
    {evs : List UiEvent} {lgs : List (Nat × String)} {res : ARes Row UiEvent}
    (h : outerHandlerUser table rid e ab evs lgs = .ok res) :
    res.pauses = [true] ∧ res.logs.any (fun l => l.1 == rid) = true := by
  unfold outerHandlerUser at h
  split at h
  · cases h
  · split at h
    · cases h
    · simp only [Except.ok.injEq] at h
      subst h
      exact ⟨rfl, by simp⟩

theorem uiWaitUser_retry {testing : Bool} {table : List Row} {rid : Nat}
    {o : UserOracle} {evs : List UiEvent} {lgs : List (Nat × String)}
    {res : ARes Row UiEvent} (h : uiWaitUser testing table rid o evs lgs = .ok res)
    (ho : res.outcome = .retry) :
    res.pauses = [true] ∧ res.logs.any (fun l => l.1 == rid) = true := by
  unfold uiWaitUser at h
  split at h
  · split at h
    · cases h
    · simp only [Except.ok.injEq] at h
      subst h
      simp at ho
  · split at h
    · cases h
    · simp only [Except.ok.injEq] at h
      subst h
      exact ⟨rfl, by simp⟩
  · exact outerHandlerUser_retry h

theorem uiSaveUser_retry {testing : Bool} {table : List Row} {rid : Nat}
    {o : UserOracle} {evs : List UiEvent} {lgs : List (Nat × String)}
    {res : ARes Row UiEvent} (h : uiSaveUser testing table rid o evs lgs = .ok res)
    (ho : res.outcome = .retry) :
    res.pauses = [true] ∧ res.logs.any (fun l => l.1 == rid) = true := by
  unfold uiSaveUser at h
  split at h
  · exact uiWaitUser_retry h ho
  · exact innerHandlerUser_retry h

theorem uiSelectUser_retry {testing : Bool} {table : List Row} {rid ri : Nat}
    {o : UserOracle} {evs : List UiEvent} {lgs : List (Nat × String)}
    {res : ARes Row UiEvent} (h : uiSelectUser testing table rid ri o evs lgs = .ok res)
    (ho : res.outcome = .retry) :
    res.pauses = [true] ∧ res.logs.any (fun l => l.1 == rid) = true := by
  unfold uiSelectUser at h
  split at h
  · exact uiSaveUser_retry h ho
  · exact innerHandlerUser_retry h

theorem uiFillUser_retry {testing : Bool} {pw : String} {table : List Row} {rid : Nat}
    {aU fN em : String} {ri : Nat} {o : UserOracle} {evs : List UiEvent}
    {lgs : List (Nat × String)} {res : ARes Row UiEvent}
    (h : uiFillUser testing pw table rid aU fN em ri o evs lgs = .ok res)
    (ho : res.outcome = .retry) :
    res.pauses = [true] ∧ res.logs.any (fun l => l.1 == rid) = true := by
  unfold uiFillUser at h
  split at h
  · exact uiSelectUser_retry h ho
  · exact innerHandlerUser_retry h

theorem uiPhaseUser_retry {testing : Bool} {pw : String} {table : List Row} {rid : Nat}
    {aU fN em : String} {ri : Nat} {o : UserOracle} {res : ARes Row UiEvent}
    (h : uiPhaseUser testing pw table rid aU fN em ri o = .ok res)
    (ho : res.outcome = .retry) :
    res.pauses = [true] ∧ res.logs.any (fun l => l.1 == rid) = true := by
  unfold uiPhaseUser at h
  split at h
  · exact outerHandlerUser_retry h
  · split at h
    · exact uiFillUser_retry h ho
    · split at h
      · exact uiFillUser_retry h ho
      · exact innerHandlerUser_retry h

theorem attemptUser_retry {testing : Bool} {pw : String} {table : List Row} {rid : Nat}
    {o : UserOracle} {res : ARes Row UiEvent}
    (h : attemptUser testing pw table rid o = .ok res)
    (ho : res.outcome = .retry) :
    res.pauses = [true] ∧ res.logs.any (fun l => l.1 == rid) = true := by
  unfold attemptUser at h
  split at h
  · simp only [Except.ok.injEq] at h
    subst h
    simp at ho
  · split at h
    · simp only [Except.ok.injEq] at h
      subst h
      simp at ho
    · dsimp only at h
      split at h
      · split at h
        · cases h
        · simp only [Except.ok.injEq] at h
          subst h
          exact ⟨rfl, by simp⟩
      · split at h
        · split at h
          · cases h
          · simp only [Except.ok.injEq] at h
            subst h
            exact ⟨rfl, by simp⟩
        · split at h
          · split at h
            · cases h
            · simp only [Except.ok.injEq] at h
              subst h
              exact ⟨rfl, by simp⟩
          · split at h
            · split at h
              · cases h
              · simp only [Except.ok.injEq] at h
                subst h
                exact ⟨rfl, by simp⟩
            · exact uiPhaseUser_retry h ho

theorem pendingHandlerPcc_retry {table : List PccRow} {rid : Nat} {e : Exn} {ab : Bool}
    {sm : String} {evs : List PccEvent} {lgs : List (Nat × String)} {m : String}
    {res : ARes PccRow PccEvent}
    (h : pendingHandlerPcc table rid e ab sm evs lgs m = .ok res) :
    res.pauses = [true] ∧ res.logs.any (fun l => l.1 == rid) = true := by
  unfold pendingHandlerPcc at h
  split at h
  · cases h
  · split at h
    · cases h
    · simp only [Except.ok.injEq] at h
      subst h
      exact ⟨rfl, by simp⟩

theorem outerHandlerPcc_retry {table : List PccRow} {rid : Nat} {e : Exn} {ab : Bool}
    {evs : List PccEvent} {lgs : List (Nat × String)} {res : ARes PccRow PccEvent}
    (h : outerHandlerPcc table rid e ab evs lgs = .ok res) :
    res.pauses = [true] ∧ res.logs.any (fun l => l.1 == rid) = true := by
  unfold outerHandlerPcc at h
  split at h
  · cases h
  · split at h
    · cases h
    · simp only [Except.ok.injEq] at h
      subst h
      exact ⟨rfl, by simp⟩

theorem uiWaitPcc_retry {testing : Bool} {table : List PccRow} {rid : Nat}
    {o : PccOracle} {evs : List PccEvent} {lgs : List (Nat × String)}
    {res : ARes PccRow PccEvent} (h : uiWaitPcc testing table rid o evs lgs = .ok res)
    (ho : res.outcome = .retry) :
    res.pauses = [true] ∧ res.logs.any (fun l => l.1 == rid) = true := by
  unfold uiWaitPcc at h
  split at h
  · split at h
    · cases h
    · simp only [Except.ok.injEq] at h
      subst h
      simp at ho
  · split at h
    · cases h
    · simp only [Except.ok.injEq] at h
      subst h
      exact ⟨rfl, by simp⟩
  · exact outerHandlerPcc_retry h

theorem uiSavePcc_retry {testing : Bool} {table : List PccRow} {rid : Nat}
    {o : PccOracle} {evs : List PccEvent} {lgs : List (Nat × String)}
    {res : ARes PccRow PccEvent} (h : uiSavePcc testing table rid o evs lgs = .ok res)
    (ho : res.outcome = .retry) :
    res.pauses = [true] ∧ res.logs.any (fun l => l.1 == rid) = true := by
  unfold uiSavePcc at h
  split at h
  · exact uiWaitPcc_retry h ho
  · exact pendingHandlerPcc_retry h

theorem uiFillPcc_retry {testing : Bool} {table : List PccRow} {rid : Nat}
    {ce : String} {o : PccOracle} {evs : List PccEvent} {lgs : List (Nat × String)}
    {res : ARes PccRow PccEvent} (h : uiFillPcc testing table rid ce o evs lgs = .ok res)
    (ho : res.outcome = .retry) :
    res.pauses = [true] ∧ res.logs.any (fun l => l.1 == rid) = true := by
  unfold uiFillPcc at h
  split at h
  · exact uiSavePcc_retry h ho
  · exact pendingHandlerPcc_retry h

theorem uiModalPcc_retry {testing : Bool} {table : List PccRow} {rid : Nat}
    {ce : String} {o : PccOracle} {evs : List PccEvent} {lgs : List (Nat × String)}
    {res : ARes PccRow PccEvent} (h : uiModalPcc testing table rid ce o evs lgs = .ok res)
    (ho : res.outcome = .retry) :
    res.pauses = [true] ∧ res.logs.any (fun l => l.1 == rid) = true := by
  unfold uiModalPcc at h
  split at h
  · exact uiFillPcc_retry h ho
  · exact pendingHandlerPcc_retry h

theorem uiEditPcc_retry {testing : Bool} {table : List PccRow} {rid : Nat}
    {ce : String} {o : PccOracle} {evs : List PccEvent} {lgs : List (Nat × String)}
    {res : ARes PccRow PccEvent} (h : uiEditPcc testing table rid ce o evs lgs = .ok res)
    (ho : res.outcome = .retry) :
    res.pauses = [true] ∧ res.logs.any (fun l => l.1 == rid) = true := by
  unfold uiEditPcc at h
  split at h
  · exact uiModalPcc_retry h ho
  · exact pendingHandlerPcc_retry h

theorem uiPhasePcc_retry {testing : Bool} {table : List PccRow} {rid : Nat}
    {pcc ce : String} {o : PccOracle} {res : ARes PccRow PccEvent}
    (h : uiPhasePcc testing table rid pcc ce o = .ok res)
    (ho : res.outcome = .retry) :
    res.pauses = [true] ∧ res.logs.any (fun l => l.1 == rid) = true := by
  unfold uiPhasePcc at h
  split at h
  · exact uiEditPcc_retry h ho
  · split at h
    · cases h
    · simp only [Except.ok.injEq] at h
      subst h
      exact ⟨rfl, by simp⟩
  · exact outerHandlerPcc_retry h

theorem attemptPcc_retry {testing : Bool} {table : List PccRow} {rid : Nat}
    {o : PccOracle} {res : ARes PccRow PccEvent}
    (h : attemptPcc testing table rid o = .ok res)
    (ho : res.outcome = .retry) :
    res.pauses = [true] ∧ res.logs.any (fun l => l.1 == rid) = true := by
  unfold attemptPcc at h
  split at h
  · simp only [Except.ok.injEq] at h
    subst h
    simp at ho
  · split at h
    · simp only [Except.ok.injEq] at h
      subst h
      simp at ho
    · dsimp only at h
      split at h
      · split at h
        · cases h
        · simp only [Except.ok.injEq] at h
          subst h
          exact ⟨rfl, by simp⟩
      · split at h
        · split at h
          · cases h
          · simp only [Except.ok.injEq] at h
            subst h
            exact ⟨rfl, by simp⟩
        · split at h
          · split at h
            · cases h
            · simp only [Except.ok.injEq] at h
              subst h
              exact ⟨rfl, by simp⟩
          · exact uiPhasePcc_retry h ho

/-! Role-selection safety: no `main.py` iteration ever emits a UI role
selection with index 0. -/

theorem noBadSelect_nil : noBadSelect [] := by
  intro j hj
  cases hj

theorem noBadSelect_append {a b : List UiEvent} (ha : noBadSelect a) (hb : noBadSelect b) :
    noBadSelect (a ++ b) := by
  intro j hj
  rcases List.mem_append.mp hj with h | h
  · exact ha j h
  · exact hb j h

theorem innerHandlerUser_select {table : List Row} {rid : Nat} {e : Exn} {ab : Bool}
    {evs : List UiEvent} {lgs : List (Nat × String)} {m : String} {res : ARes Row UiEvent}
    (h : innerHandlerUser table rid e ab evs lgs m = .ok res) (hin : noBadSelect evs) :
    noBadSelect res.events := by
  unfold innerHandlerUser at h
  split at h
  · cases h
  · split at h
    · cases h
    · simp only [Except.ok.injEq] at h
      subst h
      exact hin

theorem outerHandlerUser_select {table : List Row} {rid : Nat} {e : Exn} {ab : Bool}
    {evs : List UiEvent} {lgs : List (Nat × String)} {res : ARes Row UiEvent}
    (h : outerHandlerUser table rid e ab evs lgs = .ok res) (hin : noBadSelect evs) :
    noBadSelect res.events := by
  unfold outerHandlerUser at h
  split at h
  · cases h
  · split at h
    · cases h
    · simp only [Except.ok.injEq] at h
      subst h
      exact hin

theorem uiWaitUser_select {testing : Bool} {table : List Row} {rid : Nat}
    {o : UserOracle} {evs : List UiEvent} {lgs : List (Nat × String)}
    {res : ARes Row UiEvent} (h : uiWaitUser testing table rid o evs lgs = .ok res)
    (hin : noBadSelect evs) : noBadSelect res.events := by
  have hin' : noBadSelect (evs ++ [.waitModalGone]) :=
    noBadSelect_append hin (by intro j hj; simp at hj)
  unfold uiWaitUser at h
  split at h
  · split at h
    · cases h
    · simp only [Except.ok.injEq] at h
      subst h
      exact hin'
  · split at h
    · cases h
    · simp only [Except.ok.injEq] at h
      subst h
      exact hin'
  · exact outerHandlerUser_select h hin'

theorem uiSaveUser_select {testing : Bool} {table : List Row} {rid : Nat}
    {o : UserOracle} {evs : List UiEvent} {lgs : List (Nat × String)}
    {res : ARes Row UiEvent} (h : uiSaveUser testing table rid o evs lgs = .ok res)
    (hin : noBadSelect evs) : noBadSelect res.events := by
  have hin' : noBadSelect (evs ++ [.clickSave]) :=
    noBadSelect_append hin (by intro j hj; simp at hj)
  unfold uiSaveUser at h
  split at h
  · exact uiWaitUser_select h hin'
  · exact innerHandlerUser_select h hin'

theorem uiSelectUser_select {testing : Bool} {table : List Row} {rid ri : Nat}
    {o : UserOracle} {evs : List UiEvent} {lgs : List (Nat × String)}
    {res : ARes Row UiEvent} (h : uiSelectUser testing table rid ri o evs lgs = .ok res)
    (hin : noBadSelect evs) (hri : 1 ≤ ri) : noBadSelect res.events := by
  have hin' : noBadSelect (evs ++ [.selectRoleOption ri]) :=
    noBadSelect_append hin (by intro j hj; simp at hj; subst hj; exact hri)
  unfold uiSelectUser at h
  split at h
  · exact uiSaveUser_select h hin'
  · exact innerHandlerUser_select h hin'

theorem uiFillUser_select {testing : Bool} {pw : String} {table : List Row} {rid : Nat}
    {aU fN em : String} {ri : Nat} {o : UserOracle} {evs : List UiEvent}
    {lgs : List (Nat × String)} {res : ARes Row UiEvent}
    (h : uiFillUser testing pw table rid aU fN em ri o evs lgs = .ok res)
    (hin : noBadSelect evs) (hri : 1 ≤ ri) : noBadSelect res.events := by
  have hin' : noBadSelect (evs ++ [.fillInputs aU fN em pw]) :=
    noBadSelect_append hin (by intro j hj; simp at hj)
  unfold uiFillUser at h
  split at h
  · exact uiSelectUser_select h hin' hri
  · exact innerHandlerUser_select h hin'

theorem uiPhaseUser_select {testing : Bool} {pw : String} {table : List Row} {rid : Nat}
    {aU fN em : String} {ri : Nat} {o : UserOracle} {res : ARes Row UiEvent}
    (h : uiPhaseUser testing pw table rid aU fN em ri o = .ok res)
    (hri : 1 ≤ ri) : noBadSelect res.events := by
  have h0 : noBadSelect [UiEvent.findModal] := by intro j hj; simp at hj
  have h1 : noBadSelect [UiEvent.findModal, UiEvent.clickAddUser] := by
    intro j hj; simp at hj
  unfold uiPhaseUser at h
  split at h
  · exact outerHandlerUser_select h h0
  · split at h
    · exact uiFillUser_select h h0 hri
    · split at h
      · exact uiFillUser_select h h1 hri
      · exact innerHandlerUser_select h h1

theorem attemptUser_select {testing : Bool} {pw : String} {table : List Row} {rid : Nat}
    {o : UserOracle} {res : ARes Row UiEvent}
    (h : attemptUser testing pw table rid o = .ok res) : noBadSelect res.events := by
  unfold attemptUser at h
  split at h
  · simp only [Except.ok.injEq] at h
    subst h
    exact noBadSelect_nil
  · split at h
    · simp only [Except.ok.injEq] at h
      subst h
      exact noBadSelect_nil
    · dsimp only at h
      split at h
      · split at h
        · cases h
        · simp only [Except.ok.injEq] at h
          subst h
          exact noBadSelect_nil
      · split at h
        · split at h
          · cases h
          · simp only [Except.ok.injEq] at h
            subst h
            exact noBadSelect_nil
        · split at h
          · split at h
            · cases h
            · simp only [Except.ok.injEq] at h
              subst h
              exact noBadSelect_nil
          · split at h
            · split at h
              · cases h
              · simp only [Except.ok.injEq] at h
                subst h
                exact noBadSelect_nil
            · rename_i hri
              refine uiPhaseUser_select h ?_
              simp only [beq_iff_eq] at hri
              omega

/-! Exact results of the idempotent skip and of each validation gate, for
both scripts. -/

theorem attemptUser_alreadyDone {testing : Bool} {pw : String} {table : List Row}
    {rid : Nat} {o : UserOracle} {row : Row}
    (hfind : table.find? (fun r => r.rowId == rid) = some row)
    (hdone : (pyLowerS (pyStripS row.status) == "done") = true) :
    attemptUser testing pw table rid o =
      .ok ⟨table, .alreadyDone, [], [], [(rid, "already Done; skipping")]⟩ := by
  unfold attemptUser
  rw [hfind]
  simp [hdone]

theorem attemptUser_invalid_username {testing : Bool} {pw : String} {table : List Row}
    {rid : Nat} {o : UserOracle} {row : Row}
    (hfind : table.find? (fun r => r.rowId == rid) = some row)
    (hnd : (pyLowerS (pyStripS row.status) == "done") = false)
    (hu : validate_username (pyStripS row.agentUser) = false)
    (hab : o.operatorAborts = false) :
    attemptUser testing pw table rid o =
      .ok ⟨setStatus table rid "Pending - invalid username", .retry, [], [true],
        [(rid, "Invalid username")]⟩ := by
  unfold attemptUser
  rw [hfind]
  simp [hnd, hu, hab]

theorem attemptUser_invalid_email {testing : Bool} {pw : String} {table : List Row}
    {rid : Nat} {o : UserOracle} {row : Row}
    (hfind : table.find? (fun r => r.rowId == rid) = some row)
    (hnd : (pyLowerS (pyStripS row.status) == "done") = false)
    (hu : validate_username (pyStripS row.agentUser) = true)
    (he : validate_email (pyStripS row.email) = false)
    (hab : o.operatorAborts = false) :
    attemptUser testing pw table rid o =
      .ok ⟨setStatus table rid "Pending - invalid email", .retry, [], [true],
        [(rid, "Invalid email")]⟩ := by
  unfold attemptUser
  rw [hfind]
  simp [hnd, hu, he, hab]

theorem attemptUser_missing_fields {testing : Bool} {pw : String} {table : List Row}
    {rid : Nat} {o : UserOracle} {row : Row}
    (hfind : table.find? (fun r => r.rowId == rid) = some row)
    (hnd : (pyLowerS (pyStripS row.status) == "done") = false)
    (hu : validate_username (pyStripS row.agentUser) = true)
    (he : validate_email (pyStripS row.email) = true)
    (hm : (pyStripS row.agentUser == "" || pyStripS row.name == "" ||
      pyStripS row.lastName == "" || pyStripS row.email == "") = true)
    (hab : o.operatorAborts = false) :
    attemptUser testing pw table rid o =
      .ok ⟨setStatus table rid "Pending - missing fields", .retry, [], [true],
        [(rid, "Missing required fields")]⟩ := by
  unfold attemptUser
  rw [hfind]
  simp [hnd, hu, he, hm, hab]

theorem attemptUser_unknown_role {testing : Bool} {pw : String} {table : List Row}
    {rid : Nat} {o : UserOracle} {row : Row}
    (hfind : table.find? (fun r => r.rowId == rid) = some row)
    (hnd : (pyLowerS (pyStripS row.status) == "done") = false)
    (hu : validate_username (pyStripS row.agentUser) = true)
    (he : validate_email (pyStripS row.email) = true)
    (hm : (pyStripS row.agentUser == "" || pyStripS row.name == "" ||
      pyStripS row.lastName == "" || pyStripS row.email == "") = false)
    (hr : role_to_index (normalize_role (pyStripS row.role)) = 0)
    (hab : o.operatorAborts = false) :
    attemptUser testing pw table rid o =
      .ok ⟨setStatus table rid ("Pending - unknown role: " ++ pyStripS row.role),
        .retry, [], [true], [(rid, "Unknown role")]⟩ := by
  unfold attemptUser
  rw [hfind]
  simp [hnd, hu, he, hm, hr, hab]

theorem attemptPcc_alreadyDone {testing : Bool} {table : List PccRow}
    {rid : Nat} {o : PccOracle} {row : PccRow}
    (hfind : table.find? (fun r => r.rowId == rid) = some row)
    (hdone : (pyLowerS (pyStripS row.status) == "done") = true) :
    attemptPcc testing table rid o =
      .ok ⟨table, .alreadyDone, [], [], [(rid, "already Done; skipping")]⟩ := by
  unfold attemptPcc
  rw [hfind]
  simp [hdone]

theorem attemptPcc_invalid_pcc {testing : Bool} {table : List PccRow}
    {rid : Nat} {o : PccOracle} {row : PccRow}
    (hfind : table.find? (fun r => r.rowId == rid) = some row)
    (hnd : (pyLowerS (pyStripS row.status) == "done") = false)
    (hp : validate_pcc (pyStripS row.pcc) = false)
    (hab : o.operatorAborts = false) :
    attemptPcc testing table rid o =
      .ok ⟨setStatusP table rid "Pending - invalid PCC", .retry, [], [true],
        [(rid, "Invalid PCC")]⟩ := by
  unfold attemptPcc
  rw [hfind]
  simp [hnd, hp, hab]

theorem attemptPcc_invalid_email {testing : Bool} {table : List PccRow}
    {rid : Nat} {o : PccOracle} {row : PccRow}
    (hfind : table.find? (fun r => r.rowId == rid) = some row)
    (hnd : (pyLowerS (pyStripS row.status) == "done") = false)
    (hp : validate_pcc (pyStripS row.pcc) = true)
    (he : validate_email (pyStripS row.contactEmail) = false)
    (hab : o.operatorAborts = false) :
    attemptPcc testing table rid o =
      .ok ⟨setStatusP table rid "Pending - invalid email", .retry, [], [true],
        [(rid, "Invalid email")]⟩ := by
  unfold attemptPcc
  rw [hfind]
  simp [hnd, hp, he, hab]

theorem attemptPcc_missing_fields {testing : Bool} {table : List PccRow}
    {rid : Nat} {o : PccOracle} {row : PccRow}
    (hfind : table.find? (fun r => r.rowId == rid) = some row)
    (hnd : (pyLowerS (pyStripS row.status) == "done") = false)
    (hp : validate_pcc (pyStripS row.pcc) = true)
    (he : validate_email (pyStripS row.contactEmail) = true)
    (hm : (pyStripS row.pcc == "" || pyStripS row.contactEmail == "") = true)
    (hab : o.operatorAborts = false) :
    attemptPcc testing table rid o =
      .ok ⟨setStatusP table rid "Pending - missing fields", .retry, [], [true],
        [(rid, "Missing required fields")]⟩ := by
  unfold attemptPcc
  rw [hfind]
  simp [hnd, hp, he, hm, hab]

theorem processRow_skips_done {testing : Bool} {pw wk : String} {rid : Nat}
    {fs : FS} {table : List Row} {row : Row} {o : UserOracle} {os : List UserOracle}
    (hfs : fsRead fs wk = some table)
    (hfind : table.find? (fun r => r.rowId == rid) = some row)
    (hdone : (pyLowerS (pyStripS row.status) == "done") = true) :
    processRow testing pw wk rid fs (o :: os) = .ok (fsWrite fs wk table, []) ∧
      fsRead (fsWrite fs wk table) wk = some table := by
  constructor
  · unfold processRow
    rw [hfs]
    dsimp only [Option.getD]
    rw [attemptUser_alreadyDone hfind hdone]
  · exact fsRead_fsWrite_self fs wk table

/-! Exact results of representative UI-phase failures of `main.py`, and
the fact that a UI phase never skips a row. -/

theorem uiPhaseUser_fill_fail {testing : Bool} {pw : String} {table : List Row}
    {rid : Nat} {aU fN em : String} {ri : Nat} {o : UserOracle} {e : Exn}
    (hfm : o.findModal = none) (hmo : o.modalAlreadyOpen = true)
    (hfill : o.fillStep = some e) (hki : e ≠ .keyboardInterrupt)
    (hab : o.operatorAborts = false) :
    uiPhaseUser testing pw table rid aU fN em ri o =
      .ok ⟨table, .retry, [.findModal, .fillInputs aU fN em pw], [true],
        [(rid, "Error while filling inputs")]⟩ := by
  unfold uiPhaseUser uiFillUser innerHandlerUser
  simp [hfm, hmo, hfill, hki, hab]

theorem uiPhaseUser_wait_timeout {testing : Bool} {pw : String} {table : List Row}
    {rid : Nat} {aU fN em : String} {ri : Nat} {o : UserOracle}
    (hfm : o.findModal = none) (hmo : o.modalAlreadyOpen = true)
    (hfill : o.fillStep = none) (hsel : o.selectRole = none) (hsave : o.saveClick = none)
    (hw : o.waitInvisible = some .timeout) (hab : o.operatorAborts = false) :
    uiPhaseUser testing pw table rid aU fN em ri o =
      .ok ⟨setStatus table rid "Pending - save modal open", .retry,
        [.findModal, .fillInputs aU fN em pw, .selectRoleOption ri, .clickSave,
          .waitModalGone],
        [true], [(rid, "Filled inputs"), (rid, "Save action did not close modal")]⟩ := by
  unfold uiPhaseUser uiFillUser uiSelectUser uiSaveUser uiWaitUser
  simp [hfm, hmo, hfill, hsel, hsave, hw, hab]

theorem uiPhaseUser_wait_other {testing : Bool} {pw : String} {table : List Row}
    {rid : Nat} {aU fN em : String} {ri : Nat} {o : UserOracle} {k : String}
    (hfm : o.findModal = none) (hmo : o.modalAlreadyOpen = true)
    (hfill : o.fillStep = none) (hsel : o.selectRole = none) (hsave : o.saveClick = none)
    (hw : o.waitInvisible = some (.other k)) (hab : o.operatorAborts = false) :
    uiPhaseUser testing pw table rid aU fN em ri o =
      .ok ⟨setStatus table rid ("Error - " ++ k), .retry,
        [.findModal, .fillInputs aU fN em pw, .selectRoleOption ri, .clickSave,
          .waitModalGone],
        [true], [(rid, "Filled inputs"), (rid, "Unexpected error while processing")]⟩ := by
  unfold uiPhaseUser uiFillUser uiSelectUser uiSaveUser uiWaitUser outerHandlerUser
  simp [hfm, hmo, hfill, hsel, hsave, hw, hab, Exn.kindName]

theorem innerHandlerUser_outcome {table : List Row} {rid : Nat} {e : Exn} {ab : Bool}
    {evs : List UiEvent} {lgs : List (Nat × String)} {m : String} {res : ARes Row UiEvent}
    (h : innerHandlerUser table rid e ab evs lgs m = .ok res) :
    res.outcome = .retry := by
  unfold innerHandlerUser at h
  split at h
  · cases h
  · split at h
    · cases h
    · simp only [Except.ok.injEq] at h
      subst h
      rfl

theorem outerHandlerUser_outcome {table : List Row} {rid : Nat} {e : Exn} {ab : Bool}
    {evs : List UiEvent} {lgs : List (Nat × String)} {res : ARes Row UiEvent}
    (h : outerHandlerUser table rid e ab evs lgs = .ok res) :
    res.outcome = .retry := by
  unfold outerHandlerUser at h
  split at h
  · cases h
  · split at h
    · cases h
    · simp only [Except.ok.injEq] at h
      subst h
      rfl

theorem uiWaitUser_outcome {testing : Bool} {table : List Row} {rid : Nat}
    {o : UserOracle} {evs : List UiEvent} {lgs : List (Nat × String)}
    {res : ARes Row UiEvent} (h : uiWaitUser testing table rid o evs lgs = .ok res) :
    res.outcome = .retry ∨ res.outcome = .done := by
  unfold uiWaitUser at h
  split at h
  · split at h
    · cases h
    · simp only [Except.ok.injEq] at h
      subst h
      exact Or.inr rfl
  · split at h
    · cases h
    · simp only [Except.ok.injEq] at h
      subst h
      exact Or.inl rfl
  · exact Or.inl (outerHandlerUser_outcome h)

theorem uiSaveUser_outcome {testing : Bool} {table : List Row} {rid : Nat}
    {o : UserOracle} {evs : List UiEvent} {lgs : List (Nat × String)}
    {res : ARes Row UiEvent} (h : uiSaveUser testing table rid o evs lgs = .ok res) :
    res.outcome = .retry ∨ res.outcome = .done := by
  unfold uiSaveUser at h
  split at h
  · exact uiWaitUser_outcome h
  · exact Or.inl (innerHandlerUser_outcome h)

theorem uiSelectUser_outcome {testing : Bool} {table : List Row} {rid ri : Nat}
    {o : UserOracle} {evs : List UiEvent} {lgs : List (Nat × String)}
    {res : ARes Row UiEvent} (h : uiSelectUser testing table rid ri o evs lgs = .ok res) :
    res.outcome = .retry ∨ res.outcome = .done := by
  unfold uiSelectUser at h
  split at h
  · exact uiSaveUser_outcome h
  · exact Or.inl (innerHandlerUser_outcome h)

theorem uiFillUser_outcome {testing : Bool} {pw : String} {table : List Row} {rid : Nat}
    {aU fN em : String} {ri : Nat} {o : UserOracle} {evs : List UiEvent}
    {lgs : List (Nat × String)} {res : ARes Row UiEvent}
    (h : uiFillUser testing pw table rid aU fN em ri o evs lgs = .ok res) :
    res.outcome = .retry ∨ res.outcome = .done := by
  unfold uiFillUser at h
  split at h
  · exact uiSelectUser_outcome h
  · exact Or.inl (innerHandlerUser_outcome h)

theorem uiPhaseUser_outcome {testing : Bool} {pw : String} {table : List Row} {rid : Nat}
    {aU fN em : String} {ri : Nat} {o : UserOracle} {res : ARes Row UiEvent}
    (h : uiPhaseUser testing pw table rid aU fN em ri o = .ok res) :
    res.outcome = .retry ∨ res.outcome = .done := by
  unfold uiPhaseUser at h
  split at h
  · exact Or.inl (outerHandlerUser_outcome h)
  · split at h
    · exact uiFillUser_outcome h
    · split at h
      · exact uiFillUser_outcome h
      · exact Or.inl (innerHandlerUser_outcome h)

theorem attemptUser_removed_only_if_missing {testing : Bool} {pw : String}
    {table : List Row} {rid : Nat} {o : UserOracle} {res : ARes Row UiEvent}
    (h : attemptUser testing pw table rid o = .ok res) (ho : res.outcome = .removed) :
    table.find? (fun r => r.rowId == rid) = none := by
  unfold attemptUser at h
  split at h
  · rename_i heq
    exact heq
  · split at h
    · simp only [Except.ok.injEq] at h
      subst h
      simp at ho
    · dsimp only at h
      split at h
      · split at h
        · cases h
        · simp only [Except.ok.injEq] at h
          subst h
          simp at ho
      · split at h
        · split at h
          · cases h
          · simp only [Except.ok.injEq] at h
            subst h
            simp at ho
        · split at h
          · split at h
            · cases h
            · simp only [Except.ok.injEq] at h
              subst h
              simp at ho
          · split at h
            · split at h
              · cases h
              · simp only [Except.ok.injEq] at h
                subst h
                simp at ho
            · rcases uiPhaseUser_outcome h with hr | hd
              · rw [ho] at hr
                cases hr
              · rw [ho] at hd
                cases hd

theorem attemptUser_email_gate_events {testing : Bool} {pw : String} {table : List Row}
    {rid : Nat} {o : UserOracle} {row : Row} {res : ARes Row UiEvent}
    (hfind : table.find? (fun r => r.rowId == rid) = some row)
    (he : validate_email (pyStripS row.email) = false)
    (h : attemptUser testing pw table rid o = .ok res) :
    res.events = [] := by
  unfold attemptUser at h
  rw [hfind] at h
  dsimp only at h
  split at h
  · simp only [Except.ok.injEq] at h
    subst h
    rfl
  · split at h
    · split at h
      · cases h
      · simp only [Except.ok.injEq] at h
        subst h
        rfl
    · split at h
      · split at h
        · cases h
        · simp only [Except.ok.injEq] at h
          subst h
          rfl
      · rename_i hmail
        rw [he] at hmail
        simp at hmail

theorem attemptPcc_email_gate_events {testing : Bool} {table : List PccRow}
    {rid : Nat} {o : PccOracle} {row : PccRow} {res : ARes PccRow PccEvent}
    (hfind : table.find? (fun r => r.rowId == rid) = some row)
    (he : validate_email (pyStripS row.contactEmail) = false)
    (h : attemptPcc testing table rid o = .ok res) :
    res.events = [] := by
  unfold attemptPcc at h
  rw [hfind] at h
  dsimp only at h
  split at h
  · simp only [Except.ok.injEq] at h
    subst h
    rfl
  · split at h
    · split at h
      · cases h
      · simp only [Except.ok.injEq] at h
        subst h
        rfl
    · split at h
      · split at h
        · cases h
        · simp only [Except.ok.injEq] at h
          subst h
          rfl
      · rename_i hmail
        rw [he] at hmail
        simp at hmail

/-! Frame properties of the working copy and of the whole run: the source
file is never written. -/

theorem make_working_copy_source_preserved {fs fs' : FS} {p : SrcPath} {wk : String}
    (h : make_working_copy fs p = .ok (fs', wk)) :
    fsRead fs' p.key = fsRead fs p.key := by
  unfold make_working_copy at h
  split at h
  · cases h
  · rename_i content hsrc
    split at h
    · simp only [Except.ok.injEq, Prod.mk.injEq] at h
      rw [← h.1]
    · simp only [Except.ok.injEq, Prod.mk.injEq] at h
      rw [← h.1]
      exact fsRead_fsWrite_ne fs (workingKey p) p.key content (srcKey_ne_workingKey p)

theorem make_working_copy_reuse {fs : FS} {p : SrcPath} {c w : List Row}
    (hsrc : fsRead fs p.key = some c) (hwk : fsRead fs (workingKey p) = some w) :
    make_working_copy fs p = .ok (fs, workingKey p) := by
  unfold make_working_copy
  rw [hsrc, hwk]

theorem make_working_copy_create {fs : FS} {p : SrcPath} {c : List Row}
    (hsrc : fsRead fs p.key = some c) (hwk : fsRead fs (workingKey p) = none) :
    make_working_copy fs p = .ok (fsWrite fs (workingKey p) c, workingKey p) := by
  unfold make_working_copy
  rw [hsrc, hwk]

theorem make_working_copy_idempotent {fs fs' : FS} {p : SrcPath} {wk : String}
    (h : make_working_copy fs p = .ok (fs', wk)) :
    make_working_copy fs' p = .ok (fs', wk) := by
  unfold make_working_copy at h
  split at h
  · cases h
  · rename_i content hsrc
    split at h
    · rename_i w hwk
      simp only [Except.ok.injEq, Prod.mk.injEq] at h
      rw [← h.1, ← h.2]
      exact make_working_copy_reuse hsrc hwk
    · simp only [Except.ok.injEq, Prod.mk.injEq] at h
      rw [← h.1, ← h.2]
      exact make_working_copy_reuse
        ((fsRead_fsWrite_ne fs (workingKey p) p.key content (srcKey_ne_workingKey p)).trans hsrc)
        (fsRead_fsWrite_self fs (workingKey p) content)

theorem processRow_preserves {testing : Bool} {pw wk : String} {rid : Nat}
    {k' : String} (hne : k' ≠ wk) :
    ∀ {fs : FS} {os : List UserOracle},
      (∀ fs' evs, processRow testing pw wk rid fs os = .ok (fs', evs) →
        fsRead fs' k' = fsRead fs k') ∧
      (∀ e fs', processRow testing pw wk rid fs os = .error (e, fs') →
        fsRead fs' k' = fsRead fs k') := by
  intro fs os
  induction os generalizing fs with
  | nil =>
    constructor
    · intro fs' evs h
      simp only [processRow, Except.ok.injEq, Prod.mk.injEq] at h
      rw [← h.1]
    · intro e fs' h
      cases h
  | cons o rest ih =>
    constructor
    · intro fs' evs h
      unfold processRow at h
      dsimp only at h
      split at h
      · cases h
      · rename_i res heq
        split at h
        · split at h
          · cases h
          · rename_i x hrec
            simp only [Except.ok.injEq, Prod.mk.injEq] at h
            obtain ⟨h1, h2⟩ := h
            subst h1
            have := (@ih (fsWrite fs wk res.table)).1 _ _ hrec
            rw [this, fsRead_fsWrite_ne fs wk k' res.table hne]
        · simp only [Except.ok.injEq, Prod.mk.injEq] at h
          rw [← h.1, fsRead_fsWrite_ne fs wk k' res.table hne]
    · intro e fs' h
      unfold processRow at h
      dsimp only at h
      split at h
      · rename_i e0 t heq
        simp only [Except.error.injEq, Prod.mk.injEq] at h
        rw [← h.2, fsRead_fsWrite_ne fs wk k' t hne]
      · rename_i res heq
        split at h
        · split at h
          · rename_i x hrec
            simp only [Except.error.injEq] at h
            subst h
            have := (@ih (fsWrite fs wk res.table)).2 _ _ hrec
            rw [this, fsRead_fsWrite_ne fs wk k' res.table hne]
          · cases h
        · cases h

theorem processRows_preserves {testing : Bool} {pw wk : String} {k' : String}
    (hne : k' ≠ wk) :
    ∀ {fs : FS} {jobs : List (Nat × List UserOracle)},
      (∀ fs' evs, processRows testing pw wk fs jobs = .ok (fs', evs) →
        fsRead fs' k' = fsRead fs k') ∧
      (∀ e fs', processRows testing pw wk fs jobs = .error (e, fs') →
        fsRead fs' k' = fsRead fs k') := by
  intro fs jobs
  induction jobs generalizing fs with
  | nil =>
    constructor
    · intro fs' evs h
      simp only [processRows, Except.ok.injEq, Prod.mk.injEq] at h
      rw [← h.1]
    · intro e fs' h
      cases h
  | cons j rest ih =>
    constructor
    · intro fs' evs h
      unfold processRows at h
      split at h
      · cases h
      · rename_i fs1 evs1 heq
        split at h
        · cases h
        · rename_i fs2 evs2 hrec
          simp only [Except.ok.injEq, Prod.mk.injEq] at h
          obtain ⟨h1, h2⟩ := h
          subst h1
          have ha := (processRow_preserves hne).1 _ _ heq
          have hb := (@ih fs1).1 _ _ hrec
          rw [hb, ha]
    · intro e fs' h
      unfold processRows at h
      split at h
      · rename_i x heq
        simp only [Except.error.injEq] at h
        subst h
        exact (processRow_preserves hne).2 _ _ heq
      · rename_i fs1 evs1 heq
        split at h
        · rename_i x hrec
          simp only [Except.error.injEq] at h
          subst h
          have ha := (processRow_preserves hne).1 _ _ heq
          have hb := (@ih fs1).2 _ _ hrec
          rw [hb, ha]
        · cases h

theorem run_batch_source_preserved {testing : Bool} {pw : String}
    {cf : Option String} {src : SrcPath} {fs0 : FS} {so : StartOracle}
    {ro : Nat → List UserOracle} {tr : RunTrace}
    (h : run_batch testing pw cf src fs0 so ro = .ok tr) :
    fsRead tr.fs src.key = fsRead fs0 src.key := by
  unfold run_batch at h
  split at h
  · cases h
  · rename_i fs1 wk hmwc
    have hsrc1 : fsRead fs1 src.key = fsRead fs0 src.key :=
      make_working_copy_source_preserved hmwc
    have hwk : wk = workingKey src := by
      unfold make_working_copy at hmwc
      split at hmwc
      · cases hmwc
      · split at hmwc
        · simp only [Except.ok.injEq, Prod.mk.injEq] at hmwc
          rw [← hmwc.2]
        · simp only [Except.ok.injEq, Prod.mk.injEq] at hmwc
          rw [← hmwc.2]
    have hnewk : src.key ≠ wk := hwk ▸ srcKey_ne_workingKey src
    have hfs2 : fsRead (fsWrite fs1 wk ((fsRead fs1 wk).getD [])) src.key =
        fsRead fs0 src.key := by
      rw [fsRead_fsWrite_ne fs1 wk src.key _ hnewk]
      exact hsrc1
    dsimp only at h
    split at h
    · simp only [Except.ok.injEq] at h
      subst h
      exact hfs2
    · split at h
      · simp only [Except.ok.injEq] at h
        subst h
        exact hfs2
      · split at h
        · simp only [Except.ok.injEq] at h
          subst h
          exact hfs2
        · simp only [Except.ok.injEq] at h
          subst h
          exact hfs2
        · split at h
          · rename_i e fse heq
            simp only [Except.ok.injEq] at h
            subst h
            have := (processRows_preserves hnewk).2 _ _ heq
            dsimp only
            rw [this]
            exact hfs2
          · rename_i fsr evs heq
            simp only [Except.ok.injEq] at h
            subst h
            have := (processRows_preserves hnewk).1 _ _ heq
            dsimp only
            rw [this]
            exact hfs2

/-! Row-id resolution and the clean no-op exit. -/

theorem resolve_row_ids_mem {table : List Row} {f : String} (hf : f ≠ "") (rid : Nat) :
    rid ∈ resolve_row_ids table (some f) ↔
      ∃ r ∈ table, r.rowId = rid ∧ pyLowerS (pyStripS r.creator) = pyLowerS f := by
  unfold resolve_row_ids
  simp only [hf, if_true, ne_eq, not_false_eq_true, List.mem_map, List.mem_filter,
    beq_iff_eq]
  constructor
  · rintro ⟨a, ⟨ha, hcr⟩, hid⟩
    exact ⟨a, ha, hid, hcr⟩
  · rintro ⟨a, ha, hid, hcr⟩
    exact ⟨a, ⟨ha, hcr⟩, hid⟩

theorem resolve_row_ids_sublist (table : List Row) (f : String) :
    (resolve_row_ids table (some f)).Sublist (table.map Row.rowId) := by
  unfold resolve_row_ids
  dsimp only
  split
  · exact (List.filter_sublist table).map Row.rowId
  · exact List.Sublist.refl _

theorem run_batch_noop {testing : Bool} {pw : String} {cf : Option String}
    {src : SrcPath} {fs0 fs1 : FS} {wk : String} {so : StartOracle}
    {ro : Nat → List UserOracle}
    (hmwc : make_working_copy fs0 src = .ok (fs1, wk))
    (hempty : resolve_row_ids ((fsRead fs1 wk).getD []) cf = []) :
    run_batch testing pw cf src fs0 so ro =
      .ok ⟨fsWrite fs1 wk ((fsRead fs1 wk).getD []), false, [], .noRows⟩ := by
  unfold run_batch
  rw [hmwc]
  dsimp only
  rw [hempty]
  rfl

/-- In `main1.py` a caught Edit-click failure does persist a phase status
before pausing and retrying. -/
theorem uiPhasePcc_edit_fail {testing : Bool} {table : List PccRow} {rid : Nat}
    {pcc ce : String} {o : PccOracle} {e : Exn}
    (hnav : o.navigate = none) (hedit : o.editClick = some e)
    (hki : e ≠ .keyboardInterrupt) (hab : o.operatorAborts = false) :
    uiPhasePcc testing table rid pcc ce o =
      .ok ⟨setStatusP table rid "Pending - edit not available", .retry,
        [.navigate (BASE_URL ++ pcc), .clickEdit], [true],
        [(rid, "Failed to click Edit button")]⟩ := by
  unfold uiPhasePcc uiEditPcc pendingHandlerPcc
  simp [hnav, hedit, hki, hab]

/-- A role string that is not in the fixed role list gets the sentinel
rank 0. -/
theorem role_to_index_eq_zero {r : String} (hc : ROLE_LIST.contains r = false) :
    role_to_index r = 0 := by
  have hm : r ∉ ROLE_LIST := by
    intro hmem
    have ht : ROLE_LIST.contains r = true := List.elem_iff.mpr hmem
    rw [ht] at hc
    cases hc
  have hnone : ROLE_LIST.findIdx? (fun x => x == r) = none := by
    rw [List.findIdx?_eq_none_iff]
    intro x hx
    rw [beq_eq_false_iff_ne]
    intro hEq
    exact hm (hEq ▸ hx)
  unfold role_to_index
  rw [hnone]

/-! Claim theorems. -/

/-- Claim C4: `normalize_role` is a case- and whitespace-insensitive lookup
against a fixed synonym table, so `normalize_role "Ticket Agent"` and
`normalize_role "ticketing agent"` yield the same canonical value,
unrecognized input passes through lower-cased and trimmed rather than
failing, and `role_to_index` of that canonical value is 3, the fixed
1-based position of "ticketing agent" in the ordered role list. -/
theorem C4_role_mapping :
    normalize_role "Ticket Agent" = "ticketing agent" ∧
    normalize_role "ticketing agent" = "ticketing agent" ∧
    role_to_index (normalize_role "Ticket Agent") = 3 ∧
    (∀ s : String, ROLE_SYNONYMS.lookup (pyLowerS (pyStripS s)) = none →
      normalize_role s = pyLowerS (pyStripS s)) := by
  refine ⟨rfl, rfl, rfl, ?_⟩
  intro s hs
  unfold normalize_role
  dsimp only
  rw [hs]

/-- Witness for C4: the unrecognized role "Manager" passes through
lower-cased and trimmed. -/
theorem C4_witness :
    ROLE_SYNONYMS.lookup (pyLowerS (pyStripS "Manager")) = none ∧
    normalize_role "Manager" = pyLowerS (pyStripS "Manager") :=
  ⟨rfl, C4_role_mapping.2.2.2 "Manager" rfl⟩

/-- Claim C5: a role text outside the fixed ordered role list gets the
sentinel rank 0; the state machine treats rank 0 as a validation failure,
persisting `Pending - unknown role: <text>` and pausing, with no UI
interaction for that iteration; and no iteration ever emits a UI option
selection with index 0. -/
theorem C5_unknown_role_safety :
    (∀ r : String, ROLE_LIST.contains r = false → role_to_index r = 0) ∧
    (∀ (testing : Bool) (pw : String) (table : List Row) (rid : Nat) (o : UserOracle)
        (row : Row),
      table.find? (fun r => r.rowId == rid) = some row →
      (pyLowerS (pyStripS row.status) == "done") = false →
      validate_username (pyStripS row.agentUser) = true →
      validate_email (pyStripS row.email) = true →
      (pyStripS row.agentUser == "" || pyStripS row.name == "" ||
        pyStripS row.lastName == "" || pyStripS row.email == "") = false →
      role_to_index (normalize_role (pyStripS row.role)) = 0 →
      o.operatorAborts = false →
      attemptUser testing pw table rid o =
        .ok ⟨setStatus table rid ("Pending - unknown role: " ++ pyStripS row.role),
          .retry, [], [true], [(rid, "Unknown role")]⟩) ∧
    (∀ (testing : Bool) (pw : String) (table : List Row) (rid : Nat) (o : UserOracle)
        (res : ARes Row UiEvent) (j : Nat),
      attemptUser testing pw table rid o = .ok res →
      UiEvent.selectRoleOption j ∈ res.events → 1 ≤ j) :=
  ⟨fun _ hc => role_to_index_eq_zero hc,
   fun _ _ _ _ _ _ hfind hnd hu he hm hr hab =>
     attemptUser_unknown_role hfind hnd hu he hm hr hab,
   fun _ _ _ _ _ _ j h hm => attemptUser_select h j hm⟩

/-- Witness for C5: the unknown role "boss" gets rank 0, the row with role
"Manager" is parked as `Pending - unknown role: Manager` without UI
interaction, and the successful run on `rowA` selects option index 2. -/
theorem C5_witness :
    role_to_index "boss" = 0 ∧
    attemptUser false "pw" [rowUnknownRole] 3 oOk =
      .ok ⟨setStatus [rowUnknownRole] 3
          ("Pending - unknown role: " ++ pyStripS rowUnknownRole.role),
        .retry, [], [true], [(3, "Unknown role")]⟩ ∧
    1 ≤ 2 := by
  refine ⟨?_, ?_, ?_⟩
  · exact C5_unknown_role_safety.1 "boss" rfl
  · exact C5_unknown_role_safety.2.1 false "pw" [rowUnknownRole] 3 oOk rowUnknownRole
      rfl rfl rfl rfl rfl rfl rfl
  · exact C5_unknown_role_safety.2.2 false "pw" [rowA] 0 oOk
      ⟨setDone [rowA] 0 "T0", .done,
        [.findModal, .clickAddUser, .fillInputs "ann" "Ann Lee" "ann@ex.com" "pw",
          .selectRoleOption 2, .clickSave, .waitModalGone],
        [false], [(0, "Filled inputs"), (0, "Created user; marked Done")]⟩ 2
      rfl (by simp)

/-- Claim C7 (counterexample): the claim says the identity validator
returns False exactly when the token is empty or contains a forbidden
character; the token `" a"` is nonempty and contains the forbidden space
character, yet `validate_username` strips first and returns True. -/
theorem C7_counterexample :
    validate_username " a" = true ∧ (" a" : String) ≠ "" ∧
    (" a".data.any (fun c => INVALID_USER_CHARS.contains c)) = true :=
  ⟨rfl, by decide, rfl⟩

/-- Claim C7 (amended): the identity validators strip the token first and
return False exactly when the stripped token is empty or the stripped
token contains a character from the forbidden set. -/
theorem C7_identity_validator (s : String) :
    (validate_username s = false ↔
      (pyStrip s.data = [] ∨
        (pyStrip s.data).any (fun c => INVALID_USER_CHARS.contains c) = true)) ∧
    (validate_pcc s = false ↔
      (pyStrip s.data = [] ∨
        (pyStrip s.data).any (fun c => INVALID_PCC_CHARS.contains c) = true)) := by
  constructor
  · unfold validate_username
    by_cases h : pyStrip s.data = [] <;> simp [h]
  · unfold validate_pcc
    by_cases h : pyStrip s.data = [] <;> simp [h]

/-- Witness for C7 at the concrete token ":". -/
theorem C7_witness :
    (validate_username ":" = false ↔
      (pyStrip ":".data = [] ∨
        (pyStrip ":".data).any (fun c => INVALID_USER_CHARS.contains c) = true)) ∧
    (validate_pcc ":" = false ↔
      (pyStrip ":".data = [] ∨
        (pyStrip ":".data).any (fun c => INVALID_PCC_CHARS.contains c) = true)) :=
  C7_identity_validator ":"

/-- Claim C2: a row whose persisted status is already the terminal success
value ("done", compared stripped and lower-cased) is skipped idempotently:
the iteration performs zero UI interactions, leaves the whole table (its
status and completion timestamp included) unchanged, and the retry loop
exits at once, so a row in terminal success is never re-processed;
likewise in `main1.py`. -/
theorem C2_idempotent_skip :
    (∀ (testing : Bool) (pw : String) (table : List Row) (rid : Nat) (o : UserOracle)
        (row : Row),
      table.find? (fun r => r.rowId == rid) = some row →
      (pyLowerS (pyStripS row.status) == "done") = true →
      attemptUser testing pw table rid o =
        .ok ⟨table, .alreadyDone, [], [], [(rid, "already Done; skipping")]⟩) ∧
    (∀ (testing : Bool) (table : List PccRow) (rid : Nat) (o : PccOracle) (row : PccRow),
      table.find? (fun r => r.rowId == rid) = some row →
      (pyLowerS (pyStripS row.status) == "done") = true →
      attemptPcc testing table rid o =
        .ok ⟨table, .alreadyDone, [], [], [(rid, "already Done; skipping")]⟩) ∧
    (∀ (testing : Bool) (pw wk : String) (rid : Nat) (fs : FS) (table : List Row)
        (row : Row) (o : UserOracle) (os : List UserOracle),
      fsRead fs wk = some table →
      table.find? (fun r => r.rowId == rid) = some row →
      (pyLowerS (pyStripS row.status) == "done") = true →
      processRow testing pw wk rid fs (o :: os) = .ok (fsWrite fs wk table, []) ∧
        fsRead (fsWrite fs wk table) wk = some table) :=
  ⟨fun _ _ _ _ _ _ hfind hdone => attemptUser_alreadyDone hfind hdone,
   fun _ _ _ _ _ hfind hdone => attemptPcc_alreadyDone hfind hdone,
   fun _ _ _ _ _ _ _ _ _ hfs hfind hdone => processRow_skips_done hfs hfind hdone⟩

/-- Witness for C2 on concrete already-done rows of both scripts. -/
theorem C2_witness :
    attemptUser false "pw" [rowDone] 1 oOk =
      .ok ⟨[rowDone], .alreadyDone, [], [], [(1, "already Done; skipping")]⟩ ∧
    attemptPcc false [prowDone] 1 pOk =
      .ok ⟨[prowDone], .alreadyDone, [], [], [(1, "already Done; skipping")]⟩ ∧
    (processRow false "pw" "w.xlsx" 1 fsDone [oOk] =
        .ok (fsWrite fsDone "w.xlsx" [rowDone], []) ∧
      fsRead (fsWrite fsDone "w.xlsx" [rowDone]) "w.xlsx" = some [rowDone]) := by
  refine ⟨?_, ?_, ?_⟩
  · exact C2_idempotent_skip.1 false "pw" [rowDone] 1 oOk rowDone rfl rfl
  · exact C2_idempotent_skip.2.1 false [prowDone] 1 pOk prowDone rfl rfl
  · exact C2_idempotent_skip.2.2 false "pw" "w.xlsx" 1 fsDone [rowDone] rowDone oOk []
      rfl rfl rfl

/-- Claim C6 (counterexample): a row whose email has no "@" but whose
username is also invalid gets the persisted status
`Pending - invalid username`, not `Pending - invalid email` as the claim
requires for every row with a bad email. -/
theorem C6_counterexample :
    validate_email (pyStripS rowBadBoth.email) = false ∧
    attemptUser false "pw" [rowBadBoth] 2 oOk =
      .ok ⟨setStatus [rowBadBoth] 2 "Pending - invalid username", .retry, [], [true],
        [(2, "Invalid username")]⟩ ∧
    setStatus [rowBadBoth] 2 "Pending - invalid username" ≠
      setStatus [rowBadBoth] 2 "Pending - invalid email" :=
  ⟨rfl, rfl, by decide⟩

/-- Claim C6 (amended): a row whose email does not match the pattern (in
particular one with no "@", which can never match) is never passed to the
UI phase of that iteration, and when the preceding identifier check
passes, its persisted status becomes `Pending - invalid email`; likewise
in `main1.py` behind the PCC check. -/
theorem C6_email_gate :
    (∀ cs : List Char, '@' ∉ cs → matchesEmail cs = false) ∧
    (∀ (testing : Bool) (pw : String) (table : List Row) (rid : Nat) (o : UserOracle)
        (row : Row) (res : ARes Row UiEvent),
      table.find? (fun r => r.rowId == rid) = some row →
      validate_email (pyStripS row.email) = false →
      attemptUser testing pw table rid o = .ok res → res.events = []) ∧
    (∀ (testing : Bool) (pw : String) (table : List Row) (rid : Nat) (o : UserOracle)
        (row : Row),
      table.find? (fun r => r.rowId == rid) = some row →
      (pyLowerS (pyStripS row.status) == "done") = false →
      validate_username (pyStripS row.agentUser) = true →
      validate_email (pyStripS row.email) = false →
      o.operatorAborts = false →
      attemptUser testing pw table rid o =
        .ok ⟨setStatus table rid "Pending - invalid email", .retry, [], [true],
          [(rid, "Invalid email")]⟩) ∧
    (∀ (testing : Bool) (table : List PccRow) (rid : Nat) (o : PccOracle)
        (row : PccRow) (res : ARes PccRow PccEvent),
      table.find? (fun r => r.rowId == rid) = some row →
      validate_email (pyStripS row.contactEmail) = false →
      attemptPcc testing table rid o = .ok res → res.events = []) ∧
    (∀ (testing : Bool) (table : List PccRow) (rid : Nat) (o : PccOracle)
        (row : PccRow),
      table.find? (fun r => r.rowId == rid) = some row →
      (pyLowerS (pyStripS row.status) == "done") = false →
      validate_pcc (pyStripS row.pcc) = true →
      validate_email (pyStripS row.contactEmail) = false →
      o.operatorAborts = false →
      attemptPcc testing table rid o =
        .ok ⟨setStatusP table rid "Pending - invalid email", .retry, [], [true],
          [(rid, "Invalid email")]⟩) :=
  ⟨fun _ h => matchesEmail_eq_false h,
   fun _ _ _ _ _ _ _ hfind he h => attemptUser_email_gate_events hfind he h,
   fun _ _ _ _ _ _ hfind hnd hu he hab => attemptUser_invalid_email hfind hnd hu he hab,
   fun _ _ _ _ _ _ hfind he h => attemptPcc_email_gate_events hfind he h,
   fun _ _ _ _ _ hfind hnd hp he hab => attemptPcc_invalid_email hfind hnd hp he hab⟩

/-- Witness for C6 on concrete rows with at-free emails. -/
theorem C6_witness :
    matchesEmail ['n', 'o'] = false ∧
    (⟨setStatus [rowBadEmail] 4 "Pending - invalid email", .retry, [], [true],
      [(4, "Invalid email")]⟩ : ARes Row UiEvent).events = ([] : List UiEvent) ∧
    attemptUser false "pw" [rowBadEmail] 4 oOk =
      .ok ⟨setStatus [rowBadEmail] 4 "Pending - invalid email", .retry, [], [true],
        [(4, "Invalid email")]⟩ ∧
    (⟨setStatusP [prowBadEmail] 2 "Pending - invalid email", .retry, [], [true],
      [(2, "Invalid email")]⟩ : ARes PccRow PccEvent).events = ([] : List PccEvent) ∧
    attemptPcc false [prowBadEmail] 2 pOk =
      .ok ⟨setStatusP [prowBadEmail] 2 "Pending - invalid email", .retry, [], [true],
        [(2, "Invalid email")]⟩ := by
  refine ⟨?_, ?_, ?_, ?_, ?_⟩
  · exact C6_email_gate.1 ['n', 'o'] (by decide)
  · exact C6_email_gate.2.1 false "pw" [rowBadEmail] 4 oOk rowBadEmail _ rfl rfl rfl
  · exact C6_email_gate.2.2.1 false "pw" [rowBadEmail] 4 oOk rowBadEmail rfl rfl rfl rfl rfl
  · exact C6_email_gate.2.2.2.1 false [prowBadEmail] 2 pOk prowBadEmail _ rfl rfl rfl
  · exact C6_email_gate.2.2.2.2 false [prowBadEmail] 2 pOk prowBadEmail rfl rfl rfl rfl rfl

/-- Claim C10: within each iteration the validation checks run in source
order — identifier well-formedness, then email syntax, then
missing-required-fields, then role rank — and only the first failing check
determines the persisted Pending status: each equation below holds
whatever the later fields contain; likewise for the
identifier/email prefix in `main1.py`. -/
theorem C10_validation_order :
    (∀ (testing : Bool) (pw : String) (table : List Row) (rid : Nat) (o : UserOracle)
        (row : Row),
      table.find? (fun r => r.rowId == rid) = some row →
      (pyLowerS (pyStripS row.status) == "done") = false →
      validate_username (pyStripS row.agentUser) = false →
      o.operatorAborts = false →
      attemptUser testing pw table rid o =
        .ok ⟨setStatus table rid "Pending - invalid username", .retry, [], [true],
          [(rid, "Invalid username")]⟩) ∧
    (∀ (testing : Bool) (pw : String) (table : List Row) (rid : Nat) (o : UserOracle)
        (row : Row),
      table.find? (fun r => r.rowId == rid) = some row →
      (pyLowerS (pyStripS row.status) == "done") = false →
      validate_username (pyStripS row.agentUser) = true →
      validate_email (pyStripS row.email) = false →
      o.operatorAborts = false →
      attemptUser testing pw table rid o =
        .ok ⟨setStatus table rid "Pending - invalid email", .retry, [], [true],
          [(rid, "Invalid email")]⟩) ∧
    (∀ (testing : Bool) (pw : String) (table : List Row) (rid : Nat) (o : UserOracle)
        (row : Row),
      table.find? (fun r => r.rowId == rid) = some row →
      (pyLowerS (pyStripS row.status) == "done") = false →
      validate_username (pyStripS row.agentUser) = true →
      validate_email (pyStripS row.email) = true →
      (pyStripS row.agentUser == "" || pyStripS row.name == "" ||
        pyStripS row.lastName == "" || pyStripS row.email == "") = true →
      o.operatorAborts = false →
      attemptUser testing pw table rid o =
        .ok ⟨setStatus table rid "Pending - missing fields", .retry, [], [true],
          [(rid, "Missing required fields")]⟩) ∧
    (∀ (testing : Bool) (pw : String) (table : List Row) (rid : Nat) (o : UserOracle)
        (row : Row),
      table.find? (fun r => r.rowId == rid) = some row →
      (pyLowerS (pyStripS row.status) == "done") = false →
      validate_username (pyStripS row.agentUser) = true →
      validate_email (pyStripS row.email) = true →
      (pyStripS row.agentUser == "" || pyStripS row.name == "" ||
        pyStripS row.lastName == "" || pyStripS row.email == "") = false →
      role_to_index (normalize_role (pyStripS row.role)) = 0 →
      o.operatorAborts = false →
      attemptUser testing pw table rid o =
        .ok ⟨setStatus table rid ("Pending - unknown role: " ++ pyStripS row.role),
          .retry, [], [true], [(rid, "Unknown role")]⟩) ∧
    (∀ (testing : Bool) (table : List PccRow) (rid : Nat) (o : PccOracle) (row : PccRow),
      table.find? (fun r => r.rowId == rid) = some row →
      (pyLowerS (pyStripS row.status) == "done") = false →
      validate_pcc (pyStripS row.pcc) = false →
      o.operatorAborts = false →
      attemptPcc testing table rid o =
        .ok ⟨setStatusP table rid "Pending - invalid PCC", .retry, [], [true],
          [(rid, "Invalid PCC")]⟩) ∧
    (∀ (testing : Bool) (table : List PccRow) (rid : Nat) (o : PccOracle) (row : PccRow),
      table.find? (fun r => r.rowId == rid) = some row →
      (pyLowerS (pyStripS row.status) == "done") = false →
      validate_pcc (pyStripS row.pcc) = true →
      validate_email (pyStripS row.contactEmail) = false →
      o.operatorAborts = false →
      attemptPcc testing table rid o =
        .ok ⟨setStatusP table rid "Pending - invalid email", .retry, [], [true],
          [(rid, "Invalid email")]⟩) :=
  ⟨fun _ _ _ _ _ _ hfind hnd hu hab => attemptUser_invalid_username hfind hnd hu hab,
   fun _ _ _ _ _ _ hfind hnd hu he hab => attemptUser_invalid_email hfind hnd hu he hab,
   fun _ _ _ _ _ _ hfind hnd hu he hm hab =>
     attemptUser_missing_fields hfind hnd hu he hm hab,
   fun _ _ _ _ _ _ hfind hnd hu he hm hr hab =>
     attemptUser_unknown_role hfind hnd hu he hm hr hab,
   fun _ _ _ _ _ hfind hnd hp hab => attemptPcc_invalid_pcc hfind hnd hp hab,
   fun _ _ _ _ _ hfind hnd hp he hab => attemptPcc_invalid_email hfind hnd hp he hab⟩

/-- Witness for C10: the row failing both the username and the email check
receives the username status (the earliest check), and each later gate is
exercised on a row failing exactly that gate. -/
theorem C10_witness :
    attemptUser false "pw" [rowBadBoth] 2 oFillFail =
      .ok ⟨setStatus [rowBadBoth] 2 "Pending - invalid username", .retry, [], [true],
        [(2, "Invalid username")]⟩ ∧
    attemptUser true "pw" [rowBadEmail] 4 oOpenFail =
      .ok ⟨setStatus [rowBadEmail] 4 "Pending - invalid email", .retry, [], [true],
        [(4, "Invalid email")]⟩ ∧
    attemptUser false "pw" [rowMissing] 6 oOk =
      .ok ⟨setStatus [rowMissing] 6 "Pending - missing fields", .retry, [], [true],
        [(6, "Missing required fields")]⟩ ∧
    attemptUser true "pw" [rowUnknownRole] 3 oSaveTimeout =
      .ok ⟨setStatus [rowUnknownRole] 3
          ("Pending - unknown role: " ++ pyStripS rowUnknownRole.role),
        .retry, [], [true], [(3, "Unknown role")]⟩ ∧
    attemptPcc false [prowBadPcc] 3 pOk =
      .ok ⟨setStatusP [prowBadPcc] 3 "Pending - invalid PCC", .retry, [], [true],
        [(3, "Invalid PCC")]⟩ ∧
    attemptPcc true [prowBadEmail] 2 pNavFail =
      .ok ⟨setStatusP [prowBadEmail] 2 "Pending - invalid email", .retry, [], [true],
        [(2, "Invalid email")]⟩ := by
  refine ⟨?_, ?_, ?_, ?_, ?_, ?_⟩
  · exact C10_validation_order.1 false "pw" [rowBadBoth] 2 oFillFail rowBadBoth
      rfl rfl rfl rfl
  · exact C10_validation_order.2.1 true "pw" [rowBadEmail] 4 oOpenFail rowBadEmail
      rfl rfl rfl rfl rfl
  · exact C10_validation_order.2.2.1 false "pw" [rowMissing] 6 oOk rowMissing
      rfl rfl rfl rfl rfl rfl
  · exact C10_validation_order.2.2.2.1 true "pw" [rowUnknownRole] 3 oSaveTimeout
      rowUnknownRole rfl rfl rfl rfl rfl rfl rfl
  · exact C10_validation_order.2.2.2.2.1 false [prowBadPcc] 3 pOk prowBadPcc
      rfl rfl rfl rfl
  · exact C10_validation_order.2.2.2.2.2 true [prowBadEmail] 2 pNavFail prowBadEmail
      rfl rfl rfl rfl rfl

/-- Claim C1 (counterexample): a caught failure of the Add-User open step
of `main.py` is logged and pauses and the row is retried, but the row's
persisted status is left untouched — the claim's "reflected into the
row's persisted status" fails for this per-row error. -/
theorem C1_counterexample :
    attemptUser false "pw" [rowA] 0 oOpenFail =
      .ok ⟨[rowA], .retry, [.findModal, .clickAddUser], [true],
        [(0, "Failed to click Add User button")]⟩ ∧
    rowA.status = "" :=
  ⟨rfl, rfl⟩

/-- Claim C1 (amended): every per-row error other than an operator abort is
caught and contained inside the per-row retry loop: the only exception
that can escape one loop iteration of either script, or the whole retry
loop, is `KeyboardInterrupt`; and every iteration that ends in a retry of
the same row emits exactly one mandatory pause and a log record carrying
the row's identity.  (Only the post-submit timeout and the outer handlers
also reflect the error into the row's persisted status; the intermediate
UI-step handlers of `main.py` and the navigation handler of `main1.py`
pause and retry with the status unchanged.) -/
theorem C1_error_containment :
    (∀ (testing : Bool) (pw : String) (table : List Row) (rid : Nat) (o : UserOracle)
        (e : Exn) (t : List Row),
      attemptUser testing pw table rid o = .error (e, t) → e = .keyboardInterrupt) ∧
    (∀ (testing : Bool) (table : List PccRow) (rid : Nat) (o : PccOracle)
        (e : Exn) (t : List PccRow),
      attemptPcc testing table rid o = .error (e, t) → e = .keyboardInterrupt) ∧
    (∀ (testing : Bool) (pw wk : String) (rid : Nat) (fs fs' : FS)
        (os : List UserOracle) (e : Exn),
      processRow testing pw wk rid fs os = .error (e, fs') → e = .keyboardInterrupt) ∧
    (∀ (testing : Bool) (pw : String) (table : List Row) (rid : Nat) (o : UserOracle)
        (res : ARes Row UiEvent),
      attemptUser testing pw table rid o = .ok res → res.outcome = .retry →
        res.pauses = [true] ∧ res.logs.any (fun l => l.1 == rid) = true) ∧
    (∀ (testing : Bool) (table : List PccRow) (rid : Nat) (o : PccOracle)
        (res : ARes PccRow PccEvent),
      attemptPcc testing table rid o = .ok res → res.outcome = .retry →
        res.pauses = [true] ∧ res.logs.any (fun l => l.1 == rid) = true) :=
  ⟨fun _ _ _ _ _ _ _ h => attemptUser_error h,
   fun _ _ _ _ _ _ h => attemptPcc_error h,
   fun _ _ _ _ _ _ _ _ h => processRow_error h,
   fun _ _ _ _ _ _ h ho => attemptUser_retry h ho,
   fun _ _ _ _ _ h ho => attemptPcc_retry h ho⟩

/-- Witness for C1: an operator abort at a validation pause escapes as
`KeyboardInterrupt`, and the concrete fill-step failure retries with one
mandatory pause and a row-identified log record. -/
theorem C1_witness :
    Exn.keyboardInterrupt = Exn.keyboardInterrupt ∧
    ((⟨[rowA], .retry, [.findModal, .fillInputs "ann" "Ann Lee" "ann@ex.com" "pw"],
        [true], [(0, "Error while filling inputs")]⟩ : ARes Row UiEvent).pauses =
          [true] ∧
      (⟨[rowA], .retry, [.findModal, .fillInputs "ann" "Ann Lee" "ann@ex.com" "pw"],
        [true], [(0, "Error while filling inputs")]⟩ : ARes Row UiEvent).logs.any
          (fun l => l.1 == 0) = true) := by
  constructor
  · exact C1_error_containment.1 false "pw" [rowBadBoth] 2 oAbort .keyboardInterrupt
      (setStatus [rowBadBoth] 2 "Pending - invalid username") rfl
  · exact C1_error_containment.2.2.2.1 false "pw" [rowA] 0 oFillFail _ rfl rfl

/-- Claim C3 (counterexample): an exception at the input-filling step of
`main.py` is caught individually, pauses and retries the same row, but no
`Pending - <phase>` or `Error - <kind>` status is persisted for the row:
the table comes back unchanged with the status still empty. -/
theorem C3_counterexample :
    attemptUser false "pw" [rowB] 5 oFillFail =
      .ok ⟨[rowB], .retry, [.findModal, .fillInputs "cat" "Cat Dog" "cat@dog.net" "pw"],
        [true], [(5, "Error while filling inputs")]⟩ ∧
    rowB.status = "" :=
  ⟨rfl, rfl⟩

/-- Claim C3 (amended): every exception at a UI-driven step is caught
individually and triggers a mandatory pause before the same row is retried
from the top, and a row is never skipped unless it has disappeared from
the sheet; the post-submit timeout persists `Pending - save modal open`
and exceptions reaching the outer handler persist `Error - <kind>`, but in
`main.py` failures at the open/fill/select/save-click steps persist no
status (in `main1.py` those steps do persist a `Pending - <phase>`
status, shown here for the Edit click). -/
theorem C3_ui_step_failures :
    (∀ (testing : Bool) (pw : String) (table : List Row) (rid : Nat)
        (aU fN em : String) (ri : Nat) (o : UserOracle) (e : Exn),
      o.findModal = none → o.modalAlreadyOpen = true → o.fillStep = some e →
      e ≠ .keyboardInterrupt → o.operatorAborts = false →
      uiPhaseUser testing pw table rid aU fN em ri o =
        .ok ⟨table, .retry, [.findModal, .fillInputs aU fN em pw], [true],
          [(rid, "Error while filling inputs")]⟩) ∧
    (∀ (testing : Bool) (pw : String) (table : List Row) (rid : Nat)
        (aU fN em : String) (ri : Nat) (o : UserOracle),
      o.findModal = none → o.modalAlreadyOpen = true → o.fillStep = none →
      o.selectRole = none → o.saveClick = none → o.waitInvisible = some .timeout →
      o.operatorAborts = false →
      uiPhaseUser testing pw table rid aU fN em ri o =
        .ok ⟨setStatus table rid "Pending - save modal open", .retry,
          [.findModal, .fillInputs aU fN em pw, .selectRoleOption ri, .clickSave,
            .waitModalGone],
          [true], [(rid, "Filled inputs"), (rid, "Save action did not close modal")]⟩) ∧
    (∀ (testing : Bool) (pw : String) (table : List Row) (rid : Nat)
        (aU fN em : String) (ri : Nat) (o : UserOracle) (k : String),
      o.findModal = none → o.modalAlreadyOpen = true → o.fillStep = none →
      o.selectRole = none → o.saveClick = none → o.waitInvisible = some (.other k) →
      o.operatorAborts = false →
      uiPhaseUser testing pw table rid aU fN em ri o =
        .ok ⟨setStatus table rid ("Error - " ++ k), .retry,
          [.findModal, .fillInputs aU fN em pw, .selectRoleOption ri, .clickSave,
            .waitModalGone],
          [true], [(rid, "Filled inputs"), (rid, "Unexpected error while processing")]⟩) ∧
    (∀ (testing : Bool) (pw : String) (table : List Row) (rid : Nat) (o : UserOracle)
        (res : ARes Row UiEvent),
      attemptUser testing pw table rid o = .ok res → res.outcome = .removed →
      table.find? (fun r => r.rowId == rid) = none) ∧
    (∀ (testing : Bool) (table : List PccRow) (rid : Nat) (pcc ce : String)
        (o : PccOracle) (e : Exn),
      o.navigate = none → o.editClick = some e → e ≠ .keyboardInterrupt →
      o.operatorAborts = false →
      uiPhasePcc testing table rid pcc ce o =
        .ok ⟨setStatusP table rid "Pending - edit not available", .retry,
          [.navigate (BASE_URL ++ pcc), .clickEdit], [true],
          [(rid, "Failed to click Edit button")]⟩) :=
  ⟨fun _ _ _ _ _ _ _ _ _ _ hfm hmo hfill hki hab =>
     uiPhaseUser_fill_fail hfm hmo hfill hki hab,
   fun _ _ _ _ _ _ _ _ _ hfm hmo hfill hsel hsave hw hab =>
     uiPhaseUser_wait_timeout hfm hmo hfill hsel hsave hw hab,
   fun _ _ _ _ _ _ _ _ _ _ hfm hmo hfill hsel hsave hw hab =>
     uiPhaseUser_wait_other hfm hmo hfill hsel hsave hw hab,
   fun _ _ _ _ _ _ h ho => attemptUser_removed_only_if_missing h ho,
   fun _ _ _ _ _ _ _ hnav hedit hki hab => uiPhasePcc_edit_fail hnav hedit hki hab⟩

/-- Witness for C3 at concrete oracles for each failing step. -/
theorem C3_witness :
    uiPhaseUser false "pw" [rowB] 5 "cat" "Cat Dog" "cat@dog.net" 1 oFillFail =
      .ok ⟨[rowB], .retry,
        [.findModal, .fillInputs "cat" "Cat Dog" "cat@dog.net" "pw"], [true],
        [(5, "Error while filling inputs")]⟩ ∧
    uiPhaseUser false "pw" [rowB] 5 "cat" "Cat Dog" "cat@dog.net" 1 oWaitTimeout =
      .ok ⟨setStatus [rowB] 5 "Pending - save modal open", .retry,
        [.findModal, .fillInputs "cat" "Cat Dog" "cat@dog.net" "pw",
          .selectRoleOption 1, .clickSave, .waitModalGone],
        [true], [(5, "Filled inputs"), (5, "Save action did not close modal")]⟩ ∧
    uiPhaseUser false "pw" [rowB] 5 "cat" "Cat Dog" "cat@dog.net" 1 oWaitOther =
      .ok ⟨setStatus [rowB] 5 ("Error - " ++ "StaleElementReferenceException"), .retry,
        [.findModal, .fillInputs "cat" "Cat Dog" "cat@dog.net" "pw",
          .selectRoleOption 1, .clickSave, .waitModalGone],
        [true], [(5, "Filled inputs"), (5, "Unexpected error while processing")]⟩ ∧
    ([] : List Row).find? (fun r => r.rowId == 9) = none ∧
    uiPhasePcc false [prowA] 0 "BV5Q" "a@b.co" pEditFail =
      .ok ⟨setStatusP [prowA] 0 "Pending - edit not available", .retry,
        [.navigate (BASE_URL ++ "BV5Q"), .clickEdit], [true],
        [(0, "Failed to click Edit button")]⟩ := by
  refine ⟨?_, ?_, ?_, ?_, ?_⟩
  · exact C3_ui_step_failures.1 false "pw" [rowB] 5 "cat" "Cat Dog" "cat@dog.net" 1
      oFillFail (.other "NoSuchElementException") rfl rfl rfl (by decide) rfl
  · exact C3_ui_step_failures.2.1 false "pw" [rowB] 5 "cat" "Cat Dog" "cat@dog.net" 1
      oWaitTimeout rfl rfl rfl rfl rfl rfl rfl
  · exact C3_ui_step_failures.2.2.1 false "pw" [rowB] 5 "cat" "Cat Dog" "cat@dog.net" 1
      oWaitOther "StaleElementReferenceException" rfl rfl rfl rfl rfl rfl rfl
  · exact C3_ui_step_failures.2.2.2.1 false "pw" [] 9 oOk
      ⟨[], .removed, [], [], [(9, "RowID not found in the sheet")]⟩ rfl rfl
  · exact C3_ui_step_failures.2.2.2.2 false [prowA] 0 "BV5Q" "a@b.co" pEditFail
      .timeout rfl rfl (by decide) rfl

/-- Claim C8 (counterexample): the `Creator` cell `" A"` is selected by the
filter `"a"` although the cell value does not equal the filter
case-insensitively — the code strips the cell before comparing. -/
theorem C8_counterexample :
    resolve_row_ids [rowCreator] (some "a") = [7] ∧
    pyLowerS rowCreator.creator ≠ pyLowerS "a" :=
  ⟨rfl, by decide⟩

/-- Claim C8 (amended): with a non-empty categorical filter, exactly the
rows whose stripped field value equals the filter case-insensitively are
selected (the cell is stripped, the filter is not), in their original
order of first appearance (the resolved list is a sublist of the table's
id list); the set is resolved once at the start of `run_batch`, and an
empty resolved set is a clean no-op exit with no browser session. -/
theorem C8_filter_and_noop :
    (∀ (table : List Row) (f : String) (rid : Nat), f ≠ "" →
      (rid ∈ resolve_row_ids table (some f) ↔
        ∃ r ∈ table, r.rowId = rid ∧ pyLowerS (pyStripS r.creator) = pyLowerS f)) ∧
    (∀ (table : List Row) (f : String),
      (resolve_row_ids table (some f)).Sublist (table.map Row.rowId)) ∧
    (∀ (testing : Bool) (pw : String) (cf : Option String) (src : SrcPath)
        (fs0 fs1 : FS) (wk : String) (so : StartOracle) (ro : Nat → List UserOracle),
      make_working_copy fs0 src = .ok (fs1, wk) →
      resolve_row_ids ((fsRead fs1 wk).getD []) cf = [] →
      run_batch testing pw cf src fs0 so ro =
        .ok ⟨fsWrite fs1 wk ((fsRead fs1 wk).getD []), false, [], .noRows⟩) :=
  ⟨fun _ _ rid hf => resolve_row_ids_mem hf rid,
   fun table g => resolve_row_ids_sublist table g,
   fun _ _ _ _ _ _ _ _ _ hmwc hempty => run_batch_noop hmwc hempty⟩

/-- Witness for C8: the row with creator `" A"` is selected by filter
`"A"`, the selection is a sublist of the id list, and a run over an empty
table is a clean no-op with no browser opened. -/
theorem C8_witness :
    7 ∈ resolve_row_ids [rowCreator] (some "A") ∧
    (resolve_row_ids [rowCreator] (some "A")).Sublist ([rowCreator].map Row.rowId) ∧
    run_batch false "pw" none srcEmpty fsEmpty soOk roEmpty =
      .ok ⟨fsWrite (fsWrite fsEmpty (workingKey srcEmpty) []) (workingKey srcEmpty)
          ((fsRead (fsWrite fsEmpty (workingKey srcEmpty) [])
            (workingKey srcEmpty)).getD []),
        false, [], .noRows⟩ := by
  refine ⟨?_, ?_, ?_⟩
  · exact (C8_filter_and_noop.1 [rowCreator] "A" 7 (by decide)).mpr
      ⟨rowCreator, by simp, rfl, rfl⟩
  · exact C8_filter_and_noop.2.1 [rowCreator] "A"
  · exact C8_filter_and_noop.2.2 false "pw" none srcEmpty fsEmpty
      (fsWrite fsEmpty (workingKey srcEmpty) []) (workingKey srcEmpty) soOk roEmpty
      rfl rfl

/-- Claim C9: `make_working_copy` never writes to the source file — the
source entry is preserved by the call; it copies the source to the working
name only when no working copy exists and reuses an existing working copy
otherwise, so a second call is a no-op; and over a whole run every write
targets the working file only, leaving the source entry unchanged. -/
theorem C9_working_copy_frame :
    (∀ (fs fs' : FS) (p : SrcPath) (wk : String),
      make_working_copy fs p = .ok (fs', wk) → fsRead fs' p.key = fsRead fs p.key) ∧
    (∀ (fs : FS) (p : SrcPath) (c w : List Row),
      fsRead fs p.key = some c → fsRead fs (workingKey p) = some w →
      make_working_copy fs p = .ok (fs, workingKey p)) ∧
    (∀ (fs : FS) (p : SrcPath) (c : List Row),
      fsRead fs p.key = some c → fsRead fs (workingKey p) = none →
      make_working_copy fs p = .ok (fsWrite fs (workingKey p) c, workingKey p)) ∧
    (∀ (fs fs' : FS) (p : SrcPath) (wk : String),
      make_working_copy fs p = .ok (fs', wk) →
      make_working_copy fs' p = .ok (fs', wk)) ∧
    (∀ (testing : Bool) (pw : String) (cf : Option String) (src : SrcPath) (fs0 : FS)
        (so : StartOracle) (ro : Nat → List UserOracle) (tr : RunTrace),
      run_batch testing pw cf src fs0 so ro = .ok tr →
      fsRead tr.fs src.key = fsRead fs0 src.key) :=
  ⟨fun _ _ _ _ h => make_working_copy_source_preserved h,
   fun _ _ _ _ hsrc hwk => make_working_copy_reuse hsrc hwk,
   fun _ _ _ hsrc hwk => make_working_copy_create hsrc hwk,
   fun _ _ _ _ h => make_working_copy_idempotent h,
   fun _ _ _ _ _ _ _ _ h => run_batch_source_preserved h⟩

/-- Witness for C9 on the concrete one-file filesystem. -/
theorem C9_witness :
    fsRead (fsWrite fsA (workingKey srcA) [rowA]) srcA.key = fsRead fsA srcA.key ∧
    make_working_copy fsA srcA =
      .ok (fsWrite fsA (workingKey srcA) [rowA], workingKey srcA) ∧
    make_working_copy (fsWrite fsA (workingKey srcA) [rowA]) srcA =
      .ok (fsWrite fsA (workingKey srcA) [rowA], workingKey srcA) ∧
    fsRead (RunTrace.mk
        (fsWrite (fsWrite fsA (workingKey srcA) [rowA]) (workingKey srcA) [rowA])
        true [] (.aborted .keyboardInterrupt)).fs srcA.key =
      fsRead fsA srcA.key := by
  refine ⟨?_, ?_, ?_, ?_⟩
  · exact C9_working_copy_frame.1 fsA (fsWrite fsA (workingKey srcA) [rowA]) srcA
      (workingKey srcA) rfl
  · exact C9_working_copy_frame.2.2.1 fsA srcA [rowA] rfl rfl
  · exact C9_working_copy_frame.2.2.2.1 fsA (fsWrite fsA (workingKey srcA) [rowA])
      srcA (workingKey srcA) rfl
  · exact C9_working_copy_frame.2.2.2.2 false "pw" none srcA fsA soAbort roEmpty
      (RunTrace.mk
        (fsWrite (fsWrite fsA (workingKey srcA) [rowA]) (workingKey srcA) [rowA])
        true [] (.aborted .keyboardInterrupt)) rfl

end Lp5
